import Mathlib

/-!
# tadershoy: growable buffer, shader hot reload and quad batching

A shallow embedding of `src/memory.h` and of the core of `src/tadershoy.c`.

Conventions of the embedding.

* A C array handle `T *a` managed by `memory.h` is either `NULL` or points just
  behind an `array_t` header.  It is modelled as `Option (array_t α)`: the
  header fields `size` and `cap` together with the storage cells that follow the
  header.  A cell is `none` while its content is indeterminate (fresh from
  `malloc`/`realloc`).
* `xmalloc` and `xrealloc` either return the block or terminate the process
  with `exit(42)`.  The embedding follows the executions in which the process
  goes on, so both are total here.  `size_t` values are natural numbers: a
  block of `cap` elements only exists after the allocator granted
  `sizeof(array_t) + cap * sizeof(T)` bytes, and no allocator grants more
  than `PTRDIFF_MAX` bytes, half the range of `size_t`; so `size * 2` and the
  byte count of the doubled request do not wrap for a live block.
* The OpenGL driver, `stat`, `fopen` and `fread` are the environment.  Their
  answers are explicit arguments, and the GL calls that create, change or
  delete an object or read back its info log are recorded in a trace.
* `float` is an abstract carrier with its own addition and subtraction; no
  algebraic law of floating point arithmetic is assumed anywhere.
-/

namespace Tadershoy

/-! ## memory.h -/

/-- The header `array_t` of memory.h (fields `size`, `cap`) together with the
storage that follows it in the same allocation. -/
structure array_t (α : Type) where
  size : Nat
  cap : Nat
  data : List (Option α)
deriving DecidableEq, Repr

/-- An array handle: `none` is the `NULL` pointer. -/
abbrev Arr (α : Type) := Option (array_t α)

/-- The macro `array_size(a)`: `(a) ? array_header((a))->size : 0`. -/
def array_size {α : Type} (a : Arr α) : Nat :=
  match a with
  | none => 0
  | some h => h.size

/-- The macro `array_cap(a)`: `(a) ? array_header((a))->cap : 0`. -/
def array_cap {α : Type} (a : Arr α) : Nat :=
  match a with
  | none => 0
  | some h => h.cap

/-- The macro `array_full(a)`: `array_size((a)) == array_cap((a))`. -/
def array_full {α : Type} (a : Arr α) : Bool :=
  array_size a == array_cap a

/-- The cells of a block of `n` elements returned by `xmalloc`: all
indeterminate. -/
def xmalloc {α : Type} (n : Nat) : List (Option α) :=
  List.replicate n none

/-- The cells of a block after `xrealloc` to `n` elements: the old cells up to
the smaller of the two sizes are kept, the cells gained are indeterminate. -/
def xrealloc {α : Type} (cells : List (Option α)) (n : Nat) : List (Option α) :=
  cells.take n ++ List.replicate (n - cells.length) none

/-- The function `array_resize(p, size, element_size)`.  The element size only
scales the byte count handed to the allocator; the cells are typed here. -/
def array_resize {α : Type} (p : Arr α) (size : Nat) : Arr α :=
  let size := if size = 0 then 1 else size
  match p with
  | some header => some { size := header.size, cap := size, data := xrealloc header.data size }
  | none => some { size := 0, cap := size, data := xmalloc size }

/-- The macro `array_ensure(a, size)`:
`array_cap((a)) < (size) ? (a) = array_resize((a), (size), sizeof(*(a))) : 0`. -/
def array_ensure {α : Type} (a : Arr α) (size : Nat) : Arr α :=
  if array_cap a < size then array_resize a size else a

/-- The macro `array_push_back(a, item)`: resize to `array_size(a)*2` when the
array is full, then `(a)[array_header((a))->size++] = (item)`. -/
def array_push_back {α : Type} (a : Arr α) (item : α) : Arr α :=
  let a := if array_full a then array_resize a (array_size a * 2) else a
  match a with
  | none => none
  | some h => some { size := h.size + 1, cap := h.cap, data := h.data.set h.size (some item) }

/-- The macro `array_clear(a)`: `(a) ? array_header((a))->size = 0 : 0`. -/
def array_clear {α : Type} (a : Arr α) : Arr α :=
  match a with
  | none => none
  | some h => some { size := 0, cap := h.cap, data := h.data }

/-- Reading `a[i]`: the content of cell `i`, `none` when it is indeterminate or
outside of the block. -/
def array_get {α : Type} (a : Arr α) (i : Nat) : Option α :=
  match a with
  | none => none
  | some h => h.data.getD i none

/-- The storage cells of an array (`[]` for `NULL`). -/
def array_data {α : Type} (a : Arr α) : List (Option α) :=
  match a with
  | none => []
  | some h => h.data

/-- The elements in use: the cells below `size`. -/
def array_items {α : Type} (a : Arr α) : List (Option α) :=
  (array_data a).take (array_size a)

/-- The data model invariant `size ≤ capacity`. -/
def size_le_cap {α : Type} (a : Arr α) : Prop :=
  array_size a ≤ array_cap a

instance {α : Type} (a : Arr α) : Decidable (size_le_cap a) := by
  unfold size_le_cap; infer_instance

/-- A handle as memory.h produces it: `NULL`, or a block of `cap ≥ 1` cells
of which `size ≤ cap` are in use. -/
def array_wf {α : Type} (a : Arr α) : Prop :=
  match a with
  | none => True
  | some h => h.size ≤ h.cap ∧ h.data.length = h.cap ∧ 1 ≤ h.cap

instance {α : Type} (a : Arr α) : Decidable (array_wf a) := by
  cases a with
  | none => exact isTrue trivial
  | some h => unfold array_wf; infer_instance

/-- Pushing a sequence of values one after the other. -/
def push_all {α : Type} (a : Arr α) (vs : List α) : Arr α :=
  vs.foldl array_push_back a

/-- The assignment `a[i] = v` (no cell changes when `i` is outside the block). -/
def array_set {α : Type} (a : Arr α) (i : Nat) (v : α) : Arr α :=
  match a with
  | none => none
  | some h => some { size := h.size, cap := h.cap, data := h.data.set i (some v) }

/-- Cells after an external writer (`fread`, the GL driver) stored `bytes` from
the start of the block; the cells behind them keep their content. -/
def write_cells {α : Type} : List (Option α) → List α → List (Option α)
  | [], _ => []
  | c :: cs, [] => c :: cs
  | _ :: cs, b :: bs => some b :: write_cells cs bs

/-- An external writer storing `bytes` through the handle `a`. -/
def array_write {α : Type} (a : Arr α) (bytes : List α) : Arr α :=
  match a with
  | none => none
  | some h => some { size := h.size, cap := h.cap, data := write_cells h.data bytes }

/-- The statement pair `assert(a); array_header(a)->size = n;`. -/
def array_set_size {α : Type} (a : Arr α) (n : Nat) : Arr α :=
  match a with
  | none => none
  | some h => some { size := n, cap := h.cap, data := h.data }

/-! ## tadershoy.c: data -/

/-- A C `char`, as the byte it holds. -/
abbrev char := Fin 256

/-- The constant `FILE_UPDATE_RATE`. -/
def FILE_UPDATE_RATE : Int := 10

/-- The GL constant `GL_FALSE`. -/
def GL_FALSE : Int := 0

/-- The GL constant `GL_FRAGMENT_SHADER`. -/
def GL_FRAGMENT_SHADER : Nat := 0x8B30

/-- The GL constant `GL_VERTEX_SHADER`. -/
def GL_VERTEX_SHADER : Nat := 0x8B31

/-- The largest value of a C `int`. -/
def INT_MAX : Int := 2147483647

/-- The conversion `(size_t)len` of an `int` on a 64 bit target. -/
def size_t_of_int (len : Int) : Nat :=
  (len % (2 : Int) ^ 64).toNat

/-- The C type `struct timespec`. -/
structure timespec where
  tv_sec : Int
  tv_nsec : Int
deriving DecidableEq, Repr

/-- The fields of `struct stat` the program reads. -/
structure stat_t where
  st_mtim : timespec
  st_size : Nat
deriving DecidableEq, Repr

/-- The source texts handed to `glShaderSource`: the string constants of
tadershoy.c by name, and the C string found in `file_buffer`. -/
inductive src_t where
  | quad_vs_src
  | quad_fs_src
  | vs_src
  | fs_header_src
  | fs_footer_src
  | file_buffer (cells : List (Option char))
deriving DecidableEq, Repr

/-- The state changing calls into the GL driver, in the order they are made. -/
inductive gl_call where
  | glCreateShader (type shader : Nat)
  | glShaderSource (shader : Nat) (src : List src_t)
  | glCompileShader (shader : Nat)
  | glGetShaderInfoLog (shader : Nat) (bufSize : Int)
  | glDeleteShader (shader : Nat)
  | glCreateProgram (program : Nat)
  | glAttachShader (program shader : Nat)
  | glLinkProgram (program : Nat)
  | glDetachShader (program shader : Nat)
  | glGetProgramInfoLog (program : Nat) (bufSize : Int)
  | glDeleteProgram (program : Nat)
deriving DecidableEq, Repr

/-- What the driver answers during one `create_shader`: the name returned by
`glCreateShader`, `GL_COMPILE_STATUS`, `GL_INFO_LOG_LENGTH`, and for
`glGetShaderInfoLog` the length it stores into `len` and the bytes it stores
into the buffer. -/
structure shader_outcome where
  shader : Nat
  status : Int
  info_log_length : Int
  written : Int
  text : List char
deriving DecidableEq, Repr

/-- What the driver answers during one `link_program`: the name returned by
`glCreateProgram`, `GL_LINK_STATUS`, `GL_INFO_LOG_LENGTH`, and for
`glGetProgramInfoLog` the length it stores into `len` and the bytes it stores
into the buffer. -/
structure program_outcome where
  program : Nat
  status : Int
  info_log_length : Int
  written : Int
  text : List char
deriving DecidableEq, Repr

/-- The file scope variables of tadershoy.c that the hot reload reads and
writes, and the trace of GL calls. -/
structure globals where
  file_mtime : timespec
  log_buffer : Arr char
  file_buffer : Arr char
  gl : List gl_call
deriving DecidableEq, Repr

/-- The variables at program start: zero initialised statics, no GL call yet. -/
def globals_init : globals :=
  { file_mtime := { tv_sec := 0, tv_nsec := 0 }, log_buffer := none, file_buffer := none, gl := [] }

/-! ## tadershoy.c: create_shader and link_program -/

/-- The function `create_shader(src, num_src, type)`; returns the shader name
(0 on failure) and the variables afterwards. -/
def create_shader (o : shader_outcome) (src : List src_t) (type : Nat) (g : globals) :
    Nat × globals :=
  let shader := o.shader
  let gl := g.gl ++ [gl_call.glCreateShader type shader, gl_call.glShaderSource shader src,
    gl_call.glCompileShader shader]
  let status := o.status
  if status = GL_FALSE then
    let len := o.info_log_length
    if len > 0 then
      let log_buffer := array_clear g.log_buffer
      let log_buffer := array_ensure log_buffer (size_t_of_int len)
      let gl := gl ++ [gl_call.glGetShaderInfoLog shader len]
      let log_buffer := array_write log_buffer (o.text.take len.toNat)
      let len := o.written
      let gl := gl ++ [gl_call.glDeleteShader shader]
      let log_buffer := array_set_size log_buffer (size_t_of_int len)
      (0, { g with log_buffer := log_buffer, gl := gl })
    else
      (0, { g with gl := gl })
  else
    (shader, { g with gl := gl })

/-- The function `link_program(vs, fs)`; returns the program name (0 on
failure) and the variables afterwards. -/
def link_program (o : program_outcome) (vs fs : Nat) (g : globals) : Nat × globals :=
  let program := o.program
  let gl := g.gl ++ [gl_call.glCreateProgram program, gl_call.glAttachShader program vs,
    gl_call.glAttachShader program fs, gl_call.glLinkProgram program,
    gl_call.glDetachShader program vs, gl_call.glDetachShader program fs]
  let status := o.status
  if status = GL_FALSE then
    let len := o.info_log_length
    if len > 0 then
      let log_buffer := array_clear g.log_buffer
      let log_buffer := array_ensure log_buffer (size_t_of_int len)
      let gl := gl ++ [gl_call.glGetProgramInfoLog program len]
      let log_buffer := array_write log_buffer (o.text.take len.toNat)
      let len := o.written
      let gl := gl ++ [gl_call.glDeleteProgram program]
      let log_buffer := array_set_size log_buffer (size_t_of_int len)
      (0, { g with log_buffer := log_buffer, gl := gl })
    else
      (0, { g with gl := gl })
  else
    (program, { g with gl := gl })

/-! ## tadershoy.c: the reload branch of the main loop -/

/-- The function `update_file_buffer(path, size)`.  `file` is `none` when
`fopen` fails, and otherwise the bytes `fread` delivers (at most `size`). -/
def update_file_buffer (file : Option (List char)) (size : Nat) (g : globals) :
    Bool × globals :=
  let file_buffer := array_ensure g.file_buffer (size + 1)
  match file with
  | none => (false, { g with file_buffer := file_buffer })
  | some content =>
    let bytes := content.take size
    let n := bytes.length
    let file_buffer := array_write file_buffer bytes
    let file_buffer := array_set file_buffer n 0
    (true, { g with file_buffer := file_buffer })

/-- What the environment answers during one poll of the watched file: `stat`
(`none` when it fails), `fopen`/`fread`, and the driver for the compile and for
the link. -/
structure poll_env where
  stat : Option stat_t
  file : Option (List char)
  compile : shader_outcome
  link : program_outcome
deriving DecidableEq, Repr

/-- The variables of `main` that the loop carries, with the file scope
variables. -/
structure main_state where
  g : globals
  program : Nat
  vs : Nat
  fs : Nat
  frame : Int
  last_read : Int
deriving DecidableEq, Repr

/-- The compile and link of lines 492 to 502, entered once the file is read. -/
def recompile (e : poll_env) (st : stat_t) (s : main_state) : main_state :=
  let src := [src_t.fs_header_src, src_t.file_buffer (array_data s.g.file_buffer),
    src_t.fs_footer_src]
  let g := if s.program ≠ 0 then { s.g with gl := s.g.gl ++ [gl_call.glDeleteProgram s.program] }
    else s.g
  let program := 0
  let (fs, g) := create_shader e.compile src GL_FRAGMENT_SHADER g
  if fs ≠ 0 then
    let (program, g) := link_program e.link s.vs fs g
    if program ≠ 0 then
      let g := { g with file_mtime := st.st_mtim }
      let g := { g with log_buffer := array_clear g.log_buffer }
      { s with g := g, program := program, fs := fs }
    else
      { s with g := g, program := program, fs := fs }
  else
    { s with g := g, program := program, fs := fs }

/-- The body of `if (last_read >= FILE_UPDATE_RATE)` up to `last_read = 0`
(lines 489 to 505). -/
def reload (e : poll_env) (s : main_state) : main_state :=
  match e.stat with
  | some st =>
    if st.st_mtim.tv_sec ≠ s.g.file_mtime.tv_sec ∨ st.st_mtim.tv_nsec ≠ s.g.file_mtime.tv_nsec then
      let (ok, g) := update_file_buffer e.file st.st_size s.g
      let s := { s with g := g }
      if ok then recompile e st s else s
    else s
  | none => s

/-- The poll of lines 488 to 507: due when `last_read >= FILE_UPDATE_RATE`. -/
def poll (e : poll_env) (s : main_state) : main_state :=
  if s.last_read ≥ FILE_UPDATE_RATE then
    { reload e s with last_read := 0 }
  else s

/-- Whether the reload branch reaches `create_shader` for these answers. -/
def compile_attempted (e : poll_env) (s : main_state) : Bool :=
  match e.stat with
  | some st =>
    (decide (st.st_mtim.tv_sec ≠ s.g.file_mtime.tv_sec) ||
      decide (st.st_mtim.tv_nsec ≠ s.g.file_mtime.tv_nsec)) && e.file.isSome
  | none => false

/-- The end of a loop iteration (lines 551 and 552): `frame++; last_read++;`. -/
def frame_end (s : main_state) : main_state :=
  { s with frame := s.frame + 1, last_read := s.last_read + 1 }

/-- One iteration of the main loop on the variables of `main_state`: the poll,
then the end of the iteration (rendering in between touches none of them). -/
def iteration (e : poll_env) (s : main_state) : main_state :=
  frame_end (poll e s)

/-- Successive iterations of the main loop, one environment answer each. -/
def run (es : List poll_env) (s : main_state) : main_state :=
  es.foldl (fun s e => iteration e s) s

/-- The shader setup of `main` before the loop (lines 398 to 430 and 463 to
465); `none` when `main` returns `EXIT_FAILURE`. -/
def startup (quad_vs quad_fs : shader_outcome) (quad : program_outcome)
    (main_vs : shader_outcome) : Option main_state :=
  let (vs, g) := create_shader quad_vs [src_t.quad_vs_src] GL_VERTEX_SHADER globals_init
  if vs = 0 then none
  else
    let (fs, g) := create_shader quad_fs [src_t.quad_fs_src] GL_FRAGMENT_SHADER g
    if fs = 0 then none
    else
      let (quad_program, g) := link_program quad vs fs g
      let g := { g with gl := g.gl ++ [gl_call.glDeleteShader vs, gl_call.glDeleteShader fs] }
      if quad_program = 0 then none
      else
        let (vs, g) := create_shader main_vs [src_t.vs_src] GL_VERTEX_SHADER g
        if vs = 0 then none
        else some { g := g, program := 0, vs := vs, fs := fs, frame := 0,
                    last_read := FILE_UPDATE_RATE }

/-- Whether the poll of this iteration makes a compile/link attempt. -/
def attempt_made (e : poll_env) (s : main_state) : Bool :=
  decide (s.last_read ≥ FILE_UPDATE_RATE) && compile_attempted e s

/-- The state after the iterations `es`, together with the outcome of the most
recent compile/link attempt: `true` when it failed (no program came out of
it).  Before the loop the most recent attempt is the last `create_shader` of
the setup, which succeeded. -/
def run_tracking (es : List poll_env) (s : main_state) : main_state × Bool :=
  es.foldl (fun (p : main_state × Bool) e =>
    (iteration e p.1, if attempt_made e p.1 then decide ((poll e p.1).program = 0) else p.2))
    (s, false)

/-- The driver behaviour under which a failed attempt always leaves a log:
object names are never 0, and for a failed compile or link the reported info
log length and the written length are both positive (and C `int`s). -/
def driver_logs_failures (e : poll_env) : Prop :=
  e.compile.shader ≠ 0 ∧ e.link.program ≠ 0 ∧
  (e.compile.status = GL_FALSE →
    0 < e.compile.info_log_length ∧ e.compile.info_log_length ≤ INT_MAX ∧
      0 < e.compile.written ∧ e.compile.written ≤ INT_MAX) ∧
  (e.link.status = GL_FALSE →
    0 < e.link.info_log_length ∧ e.link.info_log_length ≤ INT_MAX ∧
      0 < e.link.written ∧ e.link.written ≤ INT_MAX)

instance (e : poll_env) : Decidable (driver_logs_failures e) := by
  unfold driver_logs_failures; infer_instance

/-- The driver answers with which a compile/link attempt yields no program:
the compile or the link reports `GL_FALSE`, or an object name is 0. -/
def attempt_fails (e : poll_env) : Prop :=
  e.compile.status = GL_FALSE ∨ e.compile.shader = 0 ∨
    e.link.status = GL_FALSE ∨ e.link.program = 0

instance (e : poll_env) : Decidable (attempt_fails e) := by
  unfold attempt_fails; infer_instance

/-! ### Sample answers and states, for evaluating the reload on concrete input -/

/-- A compile that succeeds, shader name 3. -/
def sample_compile_ok : shader_outcome :=
  { shader := 3, status := 1, info_log_length := 0, written := 0, text := [] }

/-- A compile that fails with the five byte log `err!\0`, of which the driver
reports 4 characters written. -/
def sample_compile_error : shader_outcome :=
  { shader := 3, status := 0, info_log_length := 5, written := 4, text := [101, 114, 114, 33, 0] }

/-- A compile that fails while the driver reports info log length 0. -/
def sample_compile_error_no_log : shader_outcome :=
  { shader := 3, status := 0, info_log_length := 0, written := 0, text := [] }

/-- A link that succeeds, program name 4. -/
def sample_link_ok : program_outcome :=
  { program := 4, status := 1, info_log_length := 0, written := 0, text := [] }

/-- A link that fails with the five byte log `err!\0`. -/
def sample_link_error : program_outcome :=
  { program := 4, status := 0, info_log_length := 5, written := 4, text := [101, 114, 114, 33, 0] }

/-- The file on disk with timestamp (101, 0) and two bytes of content. -/
def sample_stat : stat_t :=
  { st_mtim := { tv_sec := 101, tv_nsec := 0 }, st_size := 2 }

/-- A poll that reads the file and compiles and links it. -/
def sample_env_ok : poll_env :=
  { stat := some sample_stat, file := some [120, 59], compile := sample_compile_ok,
    link := sample_link_ok }

/-- A poll that reads the file and fails to compile it, with a log. -/
def sample_env_error : poll_env :=
  { stat := some sample_stat, file := some [120, 59], compile := sample_compile_error,
    link := sample_link_ok }

/-- A poll that reads the file and fails to compile it, the driver reporting
info log length 0. -/
def sample_env_error_no_log : poll_env :=
  { stat := some sample_stat, file := some [120, 59], compile := sample_compile_error_no_log,
    link := sample_link_ok }

/-- A poll that sees the same timestamp but cannot open the file. -/
def sample_env_unreadable : poll_env :=
  { stat := some sample_stat, file := none, compile := sample_compile_ok,
    link := sample_link_ok }

/-- A controller state at a due poll: program 7 active, empty log, baseline
(100, 0). -/
def sample_state : main_state :=
  { g := { file_mtime := { tv_sec := 100, tv_nsec := 0 }, log_buffer := none,
           file_buffer := none, gl := [] },
    program := 7, vs := 1, fs := 2, frame := 30, last_read := 10 }

/-- The state at loop entry after a setup in which the driver names the quad
shaders 1 and 2, the quad program 6 and the vertex shader 5, all successful. -/
def sample_start : main_state :=
  { g := { file_mtime := { tv_sec := 0, tv_nsec := 0 }, log_buffer := none, file_buffer := none,
           gl := [gl_call.glCreateShader GL_VERTEX_SHADER 1,
                  gl_call.glShaderSource 1 [src_t.quad_vs_src],
                  gl_call.glCompileShader 1,
                  gl_call.glCreateShader GL_FRAGMENT_SHADER 2,
                  gl_call.glShaderSource 2 [src_t.quad_fs_src],
                  gl_call.glCompileShader 2,
                  gl_call.glCreateProgram 6,
                  gl_call.glAttachShader 6 1,
                  gl_call.glAttachShader 6 2,
                  gl_call.glLinkProgram 6,
                  gl_call.glDetachShader 6 1,
                  gl_call.glDetachShader 6 2,
                  gl_call.glDeleteShader 1,
                  gl_call.glDeleteShader 2,
                  gl_call.glCreateShader GL_VERTEX_SHADER 5,
                  gl_call.glShaderSource 5 [src_t.vs_src],
                  gl_call.glCompileShader 5] },
    program := 0, vs := 5, fs := 2, frame := 0, last_read := 10 }

/-! ## tadershoy.c: quads and text -/

/-- The arithmetic of C `float` the batcher uses: `+`, `-`, and the conversion
of an integer value (casts, and the literals `20.0f`, `14.0f`, ...). -/
class float_t (F : Type) where
  add : F → F → F
  sub : F → F → F
  of_int : Int → F

/-- The union `vec2` of common.h. -/
structure vec2 (F : Type) where
  x : F
  y : F
deriving DecidableEq, Repr

/-- The struct `rect_t` of common.h. -/
structure rect_t (F : Type) where
  x : F
  y : F
  w : F
  h : F
deriving DecidableEq, Repr

/-- The struct `vertex_t`. -/
structure vertex_t (F : Type) where
  pos : vec2 F
  uv : vec2 F
  color : Nat
deriving DecidableEq, Repr

/-- Modelled from the spec: the struct `glyph_t` of font.h, which is not among
the sources.  Per character: pixel offset, advance width, bitmap width and
height, and the UV rectangle into the atlas. -/
structure glyph_t (F : Type) where
  offset_x : Int
  offset_y : Int
  advance_x : Int
  width : Int
  height : Int
  uv : rect_t F
deriving DecidableEq, Repr

/-- The macro `make_vertex(pos, uv, color)`. -/
def make_vertex {F : Type} (pos uv : vec2 F) (color : Nat) : vertex_t F :=
  { pos := pos, uv := uv, color := color }

/-- The macro `make_vec2(x, y)`. -/
def make_vec2 {F : Type} (x y : F) : vec2 F :=
  { x := x, y := y }

/-- The macro `make_rect(x, y, w, h)`. -/
def make_rect {F : Type} (x y w h : F) : rect_t F :=
  { x := x, y := y, w := w, h := h }

/-- The function `push_quad(r, uv, color)` on `vertex_buffer`. -/
def push_quad {F : Type} [float_t F] (vertex_buffer : Arr (vertex_t F)) (r uv : rect_t F)
    (color : Nat) : Arr (vertex_t F) :=
  let add := (float_t.add : F → F → F)
  let vb := array_push_back vertex_buffer
    (make_vertex (make_vec2 r.x r.y) (make_vec2 uv.x uv.y) color)
  let vb := array_push_back vb
    (make_vertex (make_vec2 (add r.x r.w) r.y) (make_vec2 (add uv.x uv.w) uv.y) color)
  let vb := array_push_back vb
    (make_vertex (make_vec2 (add r.x r.w) (add r.y r.h)) (make_vec2 (add uv.x uv.w) (add uv.y uv.h))
      color)
  let vb := array_push_back vb
    (make_vertex (make_vec2 (add r.x r.w) (add r.y r.h)) (make_vec2 (add uv.x uv.w) (add uv.y uv.h))
      color)
  let vb := array_push_back vb
    (make_vertex (make_vec2 r.x (add r.y r.h)) (make_vec2 uv.x (add uv.y uv.h)) color)
  array_push_back vb (make_vertex (make_vec2 r.x r.y) (make_vec2 uv.x uv.y) color)

/-- The loop of `push_text` from index `i` on; `fuel` bounds the iterations
left (`len - i` are needed). -/
def push_text_loop {F : Type} [float_t F] (get_glyph : char → glyph_t F) (str : List char)
    (len : Nat) (orig_x : F) : Nat → Nat → F → F → Arr (vertex_t F) → Arr (vertex_t F)
  | 0, _, _, _, vertex_buffer => vertex_buffer
  | fuel + 1, i, x, y, vertex_buffer =>
    if i < len then
      if str.getD i 0 = 10 then
        push_text_loop get_glyph str len orig_x fuel (i + 1) orig_x
          (float_t.add y (float_t.of_int 20)) vertex_buffer
      else
        let glyph := get_glyph (str.getD i 0)
        let r := make_rect (float_t.add x (float_t.of_int glyph.offset_x))
          (float_t.sub y (float_t.of_int glyph.offset_y))
          (float_t.of_int glyph.width) (float_t.of_int glyph.height)
        let vertex_buffer := push_quad vertex_buffer r glyph.uv 0xFFFFFFFF
        push_text_loop get_glyph str len orig_x fuel (i + 1)
          (float_t.add x (float_t.of_int glyph.advance_x)) y vertex_buffer
    else vertex_buffer

/-- The function `push_text(str, len, x, y)` on `vertex_buffer`. -/
def push_text {F : Type} [float_t F] (get_glyph : char → glyph_t F)
    (vertex_buffer : Arr (vertex_t F)) (str : List char) (len : Nat) (x y : F) :
    Arr (vertex_t F) :=
  push_text_loop get_glyph str len x len 0 x y vertex_buffer

/-- The six vertices of a quad in the order `push_quad` pushes them. -/
def quad_vertices {F : Type} [float_t F] (r uv : rect_t F) (color : Nat) : List (vertex_t F) :=
  let add := (float_t.add : F → F → F)
  [ make_vertex (make_vec2 r.x r.y) (make_vec2 uv.x uv.y) color,
    make_vertex (make_vec2 (add r.x r.w) r.y) (make_vec2 (add uv.x uv.w) uv.y) color,
    make_vertex (make_vec2 (add r.x r.w) (add r.y r.h)) (make_vec2 (add uv.x uv.w) (add uv.y uv.h))
      color,
    make_vertex (make_vec2 (add r.x r.w) (add r.y r.h)) (make_vec2 (add uv.x uv.w) (add uv.y uv.h))
      color,
    make_vertex (make_vec2 r.x (add r.y r.h)) (make_vec2 uv.x (add uv.y uv.h)) color,
    make_vertex (make_vec2 r.x r.y) (make_vec2 uv.x uv.y) color ]

/-- The state of the text layout as the specification words it: the cursor and
the vertex buffer. -/
structure text_cursor (F : Type) where
  x : F
  y : F
  vertex_buffer : Arr (vertex_t F)

/-- One step of the text layout as the specification words it: a newline emits
nothing, puts the horizontal cursor back to the origin `x0` and adds the line
height 20 to the vertical cursor; any other byte emits one quad at the glyph's
offset from the cursor, of the glyph's size, with the glyph's UV rectangle and
colour `0xFFFFFFFF`, and adds the glyph's advance to the horizontal cursor. -/
def text_step {F : Type} [float_t F] (get_glyph : char → glyph_t F) (x0 : F)
    (c : text_cursor F) (ch : char) : text_cursor F :=
  if ch = 10 then
    { x := x0, y := float_t.add c.y (float_t.of_int 20), vertex_buffer := c.vertex_buffer }
  else
    { x := float_t.add c.x (float_t.of_int (get_glyph ch).advance_x),
      y := c.y,
      vertex_buffer := push_quad c.vertex_buffer
        { x := float_t.add c.x (float_t.of_int (get_glyph ch).offset_x),
          y := float_t.sub c.y (float_t.of_int (get_glyph ch).offset_y),
          w := float_t.of_int (get_glyph ch).width,
          h := float_t.of_int (get_glyph ch).height }
        (get_glyph ch).uv 0xFFFFFFFF }

/-- The text layout as the specification words it: the left fold of
`text_step` over the bytes, from the cursor `(x0, y0)`. -/
def push_text_fold {F : Type} [float_t F] (get_glyph : char → glyph_t F)
    (vertex_buffer : Arr (vertex_t F)) (s : List char) (x0 y0 : F) : Arr (vertex_t F) :=
  (s.foldl (text_step get_glyph x0) { x := x0, y := y0, vertex_buffer := vertex_buffer }).vertex_buffer

/-- Twice the signed area of the triangle `a b c`, in exact arithmetic; its
sign is the rotational direction of the triangle. -/
def signed_area2 (a b c : vec2 Int) : Int :=
  (b.x - a.x) * (c.y - a.y) - (c.x - a.x) * (b.y - a.y)

/-- The doubled signed areas of the triangles that a vertex list draws as
`GL_TRIANGLES` (three consecutive vertices each). -/
def triangle_areas2 : List (vertex_t Int) → List Int
  | v0 :: v1 :: v2 :: vs => signed_area2 v0.pos v1.pos v2.pos :: triangle_areas2 vs
  | _ => []

/-- A carrier for evaluating the batcher on concrete input: exact integers. -/
instance sample_float : float_t Int :=
  { add := fun a b => a + b, sub := fun a b => a - b, of_int := fun n => n }

/-- A glyph table for evaluating the text layout on concrete input: every
glyph is 8 by 13 pixels and advances by 9. -/
def sample_glyph (ch : char) : glyph_t Int :=
  { offset_x := 1, offset_y := 12, advance_x := 9, width := 8, height := 13,
    uv := { x := ch.val, y := 0, w := 8, h := 13 } }

/-! ## tadershoy.c: file accesses of a loop iteration -/

/-- The calls on the watched file that the program makes. -/
inductive file_call where
  | stat
  | fopen
  | fread
  | fclose
deriving DecidableEq, Repr

/-- The calls on the watched file made by the poll of one loop iteration
(lines 488 to 507, with `update_file_buffer`), in order: none unless
`last_read >= FILE_UPDATE_RATE`; then `stat`, then `fopen` when the timestamp
differs from the baseline, then `fread` and `fclose` when the file opened.
The rest of the iteration makes none. -/
def file_calls (e : poll_env) (s : main_state) : List file_call :=
  if s.last_read ≥ FILE_UPDATE_RATE then
    match e.stat with
    | some st =>
      if st.st_mtim.tv_sec ≠ s.g.file_mtime.tv_sec ∨
          st.st_mtim.tv_nsec ≠ s.g.file_mtime.tv_nsec then
        match e.file with
        | some _ => [file_call.stat, file_call.fopen, file_call.fread, file_call.fclose]
        | none => [file_call.stat, file_call.fopen]
      else [file_call.stat]
    | none => [file_call.stat]
  else []

/-- A link that fails while the driver reports info log length 0. -/
def sample_link_error_no_log : program_outcome :=
  { program := 4, status := 0, info_log_length := 0, written := 0, text := [] }

/-! ## tadershoy.c: failures for which the driver has no info log -/

/-- The driver answers of a compile/link attempt that fails while the info log
length reported for the failing step is not positive: the compile fails with
such a length, or the compile does not fail and the link fails with such a
length. -/
def failed_without_log (e : poll_env) : Prop :=
  (e.compile.status = GL_FALSE ∧ e.compile.info_log_length ≤ 0) ∨
  (e.compile.status ≠ GL_FALSE ∧ e.link.status = GL_FALSE ∧ e.link.info_log_length ≤ 0)

instance (e : poll_env) : Decidable (failed_without_log e) := by
  unfold failed_without_log; infer_instance

/-- A poll that reads the file and fails to compile it, the driver reporting an
info log of length 1 (the terminator alone) and 0 characters written. -/
def sample_env_error_empty_log : poll_env :=
  { stat := some sample_stat, file := some [120, 59],
    compile := { shader := 3, status := 0, info_log_length := 1, written := 0, text := [0] },
    link := sample_link_ok }

/-- A poll that reads the file while `glCreateShader` returns the name 0 and
the status read back is not `GL_FALSE`. -/
def sample_env_no_shader : poll_env :=
  { stat := some sample_stat, file := some [120, 59],
    compile := { shader := 0, status := 1, info_log_length := 0, written := 0, text := [] },
    link := sample_link_ok }

/-- A poll that reads the file and compiles it, and whose link fails while the
driver reports info log length 0. -/
def sample_env_link_error_no_log : poll_env :=
  { stat := some sample_stat, file := some [120, 59], compile := sample_compile_ok,
    link := sample_link_error_no_log }

/-- The state ten iterations after loop entry when the first poll failed to
compile with the log `err!`: the poll is due again and the log holds 4 bytes. -/
def sample_state_with_log : main_state :=
  run (List.replicate 10 sample_env_error) sample_start

/-! ## Lemmas on the growable buffer -/

theorem xrealloc_length {α : Type} (cells : List (Option α)) (n : Nat) :
    (xrealloc cells n).length = n := by
  simp only [xrealloc, List.length_append, List.length_take, List.length_replicate]
  omega

theorem xrealloc_take {α : Type} (cells : List (Option α)) (n k : Nat) (hk : k ≤ cells.length)
    (hn : k ≤ n) : (xrealloc cells n).take k = cells.take k := by
  unfold xrealloc
  rw [List.take_append_of_le_length (by simp only [List.length_take]; omega), List.take_take]
  congr 1
  omega

theorem xrealloc_getD {α : Type} (cells : List (Option α)) (n i : Nat) (hn : cells.length ≤ n) :
    (xrealloc cells n).getD i none = cells.getD i none := by
  unfold xrealloc
  rw [List.take_of_length_le hn]
  simp only [List.getD_eq_getElem?_getD]
  by_cases hi : i < cells.length
  · rw [List.getElem?_append_left hi]
  · rw [List.getElem?_append_right (by omega), List.getElem?_eq_none (l := cells) (by omega),
      List.getElem?_replicate]
    split <;> rfl

theorem take_succ_set {α : Type} (l : List α) (k : Nat) (x : α) (hk : k < l.length) :
    (l.set k x).take (k + 1) = l.take k ++ [x] := by
  induction l generalizing k with
  | nil => simp at hk
  | cons y ys ih =>
    cases k with
    | zero => simp
    | succ j =>
      simp only [List.length_cons] at hk
      simp only [List.set_cons_succ, List.take_succ_cons, List.cons_append, List.cons.injEq,
        true_and]
      exact ih j (by omega)

theorem array_resize_size {α : Type} (a : Arr α) (n : Nat) :
    array_size (array_resize a n) = array_size a := by
  cases a <;> rfl

theorem array_resize_cap {α : Type} (a : Arr α) (n : Nat) :
    array_cap (array_resize a n) = if n = 0 then 1 else n := by
  cases a <;> rfl

theorem array_resize_wf {α : Type} (a : Arr α) (n : Nat) (hwf : array_wf a)
    (hn : array_size a ≤ n) : array_wf (array_resize a n) := by
  cases a with
  | none =>
    by_cases h0 : n = 0
    · simp [array_resize, array_wf, xmalloc, h0]
    · simp [array_resize, array_wf, xmalloc, h0]; omega
  | some h =>
    simp only [array_size] at hn
    by_cases h0 : n = 0 <;> simp [array_resize, array_wf, xrealloc_length, h0] <;> omega

theorem array_resize_items {α : Type} (a : Arr α) (n : Nat) (hwf : array_wf a)
    (hn : array_size a ≤ n) : array_items (array_resize a n) = array_items a := by
  cases a with
  | none => simp [array_resize, array_items, array_size, array_data]
  | some h =>
    obtain ⟨h1, h2, h3⟩ := hwf
    simp only [array_size] at hn
    simp only [array_resize, array_items, array_size, array_data]
    apply xrealloc_take
    · omega
    · split <;> omega

theorem array_ensure_wf {α : Type} (a : Arr α) (n : Nat) (hwf : array_wf a) :
    array_wf (array_ensure a n) := by
  unfold array_ensure
  split
  · rename_i hlt
    apply array_resize_wf a n hwf
    have : array_size a ≤ array_cap a := by
      cases a with
      | none => simp [array_size]
      | some h => exact hwf.1
    omega
  · exact hwf

theorem array_clear_wf {α : Type} (a : Arr α) (hwf : array_wf a) : array_wf (array_clear a) := by
  cases a with
  | none => trivial
  | some h => exact ⟨Nat.zero_le _, hwf.2.1, hwf.2.2⟩

/-- One push on a well formed array: the handle is not `NULL` afterwards, the
size went up by one, and the elements in use are the old ones followed by the
pushed one. -/
theorem array_push_back_spec {α : Type} (a : Arr α) (v : α) (hwf : array_wf a) :
    array_wf (array_push_back a v) ∧
    array_size (array_push_back a v) = array_size a + 1 ∧
    array_items (array_push_back a v) = array_items a ++ [some v] := by
  cases a with
  | none =>
    simp [array_push_back, array_full, array_size, array_cap, array_resize, array_wf, xmalloc,
      array_items, array_data]
  | some h =>
    obtain ⟨h1, h2, h3⟩ := hwf
    by_cases hfull : h.size = h.cap
    · have hne : ¬ (h.size * 2 = 0) := by omega
      simp only [array_push_back, array_full, array_size, array_cap, hfull, beq_self_eq_true,
        if_true, array_resize, array_wf, array_items, array_data, List.length_set,
        xrealloc_length]
      rw [← hfull, if_neg hne]
      refine ⟨⟨by omega, trivial, by omega⟩, trivial, ?_⟩
      rw [take_succ_set _ _ _ (by rw [xrealloc_length]; omega),
        xrealloc_take _ _ _ (by omega) (by omega)]
    · have hb : (h.size == h.cap) = false := by simpa using hfull
      simp only [array_push_back, array_full, array_size, array_cap, hb, array_wf, array_items,
        array_data, List.length_set, Bool.false_eq_true, if_false]
      refine ⟨⟨by omega, h2, h3⟩, trivial, ?_⟩
      rw [take_succ_set _ _ _ (by omega)]

theorem push_all_spec {α : Type} (vs : List α) (a : Arr α) (hwf : array_wf a) :
    array_wf (push_all a vs) ∧
    array_size (push_all a vs) = array_size a + vs.length ∧
    array_items (push_all a vs) = array_items a ++ vs.map some := by
  induction vs generalizing a with
  | nil => simp [push_all, hwf]
  | cons v vs ih =>
    obtain ⟨w1, w2, w3⟩ := array_push_back_spec a v hwf
    obtain ⟨i1, i2, i3⟩ := ih (array_push_back a v) w1
    simp only [push_all, List.foldl_cons] at i1 i2 i3 ⊢
    refine ⟨i1, ?_, ?_⟩
    · rw [i2, w2, List.length_cons]; omega
    · rw [i3, w3]; simp

theorem array_items_length {α : Type} (a : Arr α) (hwf : array_wf a) :
    (array_items a).length = array_size a := by
  cases a with
  | none => simp [array_items, array_size, array_data]
  | some h =>
    obtain ⟨w1, w2, _⟩ := hwf
    simp only [array_items, array_size, array_data, List.length_take]
    omega

theorem array_get_of_items {α : Type} (a : Arr α) (i : Nat) (hi : i < array_size a) :
    array_get a i = (array_items a).getD i none := by
  cases a with
  | none => simp [array_size] at hi
  | some h =>
    simp only [array_size] at hi
    simp only [array_get, array_items, array_data, array_size, List.getD_eq_getElem?_getD,
      List.getElem?_take, if_pos hi]

/-! ## Claims on the growable buffer -/

/-- C1: pushing `v_0 .. v_{n-1}` one after the other onto the `NULL` array
gives an array of size `n` whose element at every index `i < n` is `v_i`; and a
growth through `array_resize` (new capacity `n` at least the old one) keeps the
size and every cell, so no element already stored changes. -/
theorem C1_push_back_sequence {α : Type} (vs : List α) (a : Arr α) (n : Nat)
    (hwf : array_wf a) (hn : array_cap a ≤ n) :
    array_size (push_all none vs) = vs.length ∧
    (∀ i : Nat, ∀ hi : i < vs.length, array_get (push_all none vs) i = some (vs.get ⟨i, hi⟩)) ∧
    array_size (array_resize a n) = array_size a ∧
    (∀ i : Nat, array_get (array_resize a n) i = array_get a i) := by
  obtain ⟨_, p2, p3⟩ := push_all_spec vs (none : Arr α) trivial
  have hsz : array_size (push_all none vs) = vs.length := by
    rw [p2]; simp [array_size]
  refine ⟨hsz, ?_, array_resize_size a n, ?_⟩
  · intro i hi
    rw [array_get_of_items _ _ (by omega), p3]
    simp [array_items, array_data, array_size, List.getD_eq_getElem?_getD,
      List.getElem?_eq_getElem hi]
  · intro i
    cases a with
    | none =>
      simp only [array_resize, array_get, xmalloc, List.getD_eq_getElem?_getD,
        List.getElem?_replicate]
      split <;> split <;> rfl
    | some h =>
      obtain ⟨h1, h2, h3⟩ := hwf
      simp only [array_cap] at hn
      have hne : ¬ n = 0 := by omega
      simp only [array_resize, array_get, if_neg hne]
      exact xrealloc_getD _ _ _ (by omega)

/-- C1 at a concrete input: three pushes, and a growth of a two element array
to capacity 5. -/
theorem C1_push_back_sequence_witness :
    array_size (push_all (none : Arr Nat) [7, 8, 9]) = 3 ∧
    array_get (push_all (none : Arr Nat) [7, 8, 9]) 2 = some 9 ∧
    array_get (array_resize (push_all (none : Arr Nat) [7, 8]) 5) 1 = some 8 := by
  have h := C1_push_back_sequence [7, 8, 9] (push_all (none : Arr Nat) [7, 8]) 5
    (by decide) (by decide)
  refine ⟨h.1, h.2.1 2 (by decide), ?_⟩
  rw [h.2.2.2 1]
  decide

theorem size_le_cap_ensure {α : Type} (a : Arr α) (m : Nat) (ha : size_le_cap a) :
    size_le_cap (array_ensure a m) := by
  unfold size_le_cap at ha ⊢
  unfold array_ensure
  split
  · rw [array_resize_size, array_resize_cap]
    split <;> omega
  · exact ha

theorem size_le_cap_push_back {α : Type} (a : Arr α) (item : α) (ha : size_le_cap a) :
    size_le_cap (array_push_back a item) := by
  unfold size_le_cap at ha ⊢
  cases a with
  | none => simp [array_push_back, array_full, array_size, array_cap, array_resize]
  | some h =>
    simp only [array_size, array_cap] at ha
    by_cases hfull : h.size = h.cap
    · simp only [array_push_back, array_full, array_size, array_cap, hfull, beq_self_eq_true,
        if_true, array_resize]
      split <;> omega
    · have hb : (h.size == h.cap) = false := by simpa using hfull
      simp only [array_push_back, array_full, array_size, array_cap, hb, Bool.false_eq_true,
        if_false]
      omega

theorem size_le_cap_clear {α : Type} (a : Arr α) : size_le_cap (array_clear a) := by
  cases a with
  | none => simp [size_le_cap, array_clear, array_size, array_cap]
  | some h => simp [size_le_cap, array_clear, array_size, array_cap]

theorem size_t_of_int_eq (x : Int) (h0 : 0 ≤ x) (h1 : x ≤ INT_MAX) :
    size_t_of_int x = x.toNat := by
  unfold size_t_of_int
  unfold INT_MAX at h1
  rw [Int.emod_eq_of_lt h0 (by omega)]

/-- The log buffer after the failure branch taken by `create_shader` and by
`link_program`: clear, ensure `len`, let the driver write, store the written
length as the size. -/
theorem size_le_cap_log_assign (log : Arr char) (text : List char) (len w : Int)
    (hlen : 0 < len) (hmax : len ≤ INT_MAX) (hw0 : 0 ≤ w) (hw : w ≤ len) :
    size_le_cap (array_set_size (array_write (array_ensure (array_clear log) (size_t_of_int len))
      text) (size_t_of_int w)) := by
  rw [size_t_of_int_eq len (by omega) hmax, size_t_of_int_eq w hw0 (by omega)]
  have hcap : len.toNat ≤ array_cap (array_ensure (array_clear log) len.toNat) := by
    unfold array_ensure
    split
    · rw [array_resize_cap]; split <;> omega
    · omega
  have hwl : w.toNat ≤ len.toNat := by omega
  generalize array_ensure (array_clear log) len.toNat = b at hcap
  cases b with
  | none => simp [size_le_cap, array_write, array_set_size, array_size]
  | some h =>
    simp only [array_cap] at hcap
    simp only [size_le_cap, array_write, array_set_size, array_size, array_cap]
    omega

/-- C2: `size ≤ capacity` holds for the `NULL` array, is kept by
`array_ensure`, `array_push_back` and `array_clear`, and is kept for the log
buffer by `create_shader` and `link_program` (which assign the size directly
after `array_ensure(log_buffer, len)`) when the driver's written length is a
length (not negative) and not above the requested length `len`, a C `int`. -/
theorem C2_size_le_cap_preserved {α : Type} (a : Arr α) (item : α) (m : Nat) (g : globals)
    (so : shader_outcome) (po : program_outcome) (src : List src_t) (type vs fs : Nat)
    (ha : size_le_cap a) (hg : size_le_cap g.log_buffer)
    (hso : 0 ≤ so.written ∧ so.written ≤ so.info_log_length ∧ so.info_log_length ≤ INT_MAX)
    (hpo : 0 ≤ po.written ∧ po.written ≤ po.info_log_length ∧ po.info_log_length ≤ INT_MAX) :
    size_le_cap (none : Arr α) ∧
    size_le_cap (array_ensure a m) ∧
    size_le_cap (array_push_back a item) ∧
    size_le_cap (array_clear a) ∧
    size_le_cap (create_shader so src type g).2.log_buffer ∧
    size_le_cap (link_program po vs fs g).2.log_buffer := by
  refine ⟨by simp [size_le_cap, array_size, array_cap], size_le_cap_ensure a m ha,
    size_le_cap_push_back a item ha, size_le_cap_clear a, ?_, ?_⟩
  · unfold create_shader
    simp only
    split
    · split
      · rename_i hlen
        exact size_le_cap_log_assign _ _ _ _ hlen hso.2.2 hso.1 hso.2.1
      · exact hg
    · exact hg
  · unfold link_program
    simp only
    split
    · split
      · rename_i hlen
        exact size_le_cap_log_assign _ _ _ _ hlen hpo.2.2 hpo.1 hpo.2.1
      · exact hg
    · exact hg

/-- C2 at a concrete input: a full two element array, and a failed compile
whose driver reports a log of 5 bytes and writes 4. -/
theorem C2_size_le_cap_preserved_witness :
    size_le_cap (array_push_back (push_all (none : Arr Nat) [1, 2]) 3) ∧
    size_le_cap (create_shader
      { shader := 1, status := 0, info_log_length := 5, written := 4, text := [101, 114, 114, 33, 0] }
      [src_t.vs_src] GL_VERTEX_SHADER globals_init).2.log_buffer := by
  have h := C2_size_le_cap_preserved (push_all (none : Arr Nat) [1, 2]) 3 0 globals_init
    { shader := 1, status := 0, info_log_length := 5, written := 4, text := [101, 114, 114, 33, 0] }
    { program := 2, status := 0, info_log_length := 0, written := 0, text := [] }
    [src_t.vs_src] GL_VERTEX_SHADER 3 4 (by decide) (by decide) (by decide) (by decide)
  exact ⟨h.2.2.1, h.2.2.2.2.1⟩

/-- C3 as stated fails for `array_ensure`: on the four element array of
capacity 4, `array_ensure(a, 5)` changes the capacity to 5, which is not twice
4; and on the `NULL` array `array_ensure(a, 7)` gives capacity 7, not 1. -/
theorem C3_ensure_not_doubling :
    array_cap (push_all (none : Arr Nat) [1, 2, 3, 4]) = 4 ∧
    array_cap (array_ensure (push_all (none : Arr Nat) [1, 2, 3, 4]) 5) = 5 ∧
    ¬ (2 * array_cap (push_all (none : Arr Nat) [1, 2, 3, 4]) ≤
      array_cap (array_ensure (push_all (none : Arr Nat) [1, 2, 3, 4]) 5)) ∧
    array_cap (array_ensure (none : Arr Nat) 7) = 7 := by
  decide

/-- C3 amended: `array_push_back` on a full array makes the capacity 1 when
the array was empty (`NULL`) and exactly twice the old capacity otherwise, and
leaves the capacity alone when the array is not full; `array_ensure(m)` with
capacity below `m` makes the capacity exactly `m`, and changes nothing when
the capacity is at least `m`. -/
theorem C3_growth_amended {α : Type} (a : Arr α) (item : α) (m : Nat) :
    (array_full a = true → array_size a = 0 → array_cap (array_push_back a item) = 1) ∧
    (array_full a = true → array_size a ≠ 0 →
      array_cap (array_push_back a item) = 2 * array_cap a) ∧
    (array_full a = false → array_cap (array_push_back a item) = array_cap a) ∧
    (array_cap a < m → array_cap (array_ensure a m) = m) ∧
    (m ≤ array_cap a → array_ensure a m = a) := by
  refine ⟨?_, ?_, ?_, ?_, ?_⟩
  · intro hf h0
    cases a with
    | none => simp [array_push_back, array_full, array_size, array_cap, array_resize]
    | some h =>
      simp only [array_size] at h0
      simp only [array_full, array_size, array_cap, beq_iff_eq] at hf
      simp [array_push_back, array_full, array_size, array_cap, array_resize, ← hf, h0]
  · intro hf h0
    cases a with
    | none => simp [array_size] at h0
    | some h =>
      simp only [array_size] at h0
      simp only [array_full, array_size, array_cap, beq_iff_eq] at hf
      simp [array_push_back, array_full, array_size, array_cap, array_resize, ← hf, h0]
      omega
  · intro hf
    cases a with
    | none => simp [array_full, array_size, array_cap] at hf
    | some h =>
      simp only [array_full, array_size, array_cap] at hf
      simp [array_push_back, array_full, array_size, array_cap, hf]
  · intro hlt
    unfold array_ensure
    rw [if_pos hlt, array_resize_cap]
    split <;> omega
  · intro hle
    unfold array_ensure
    rw [if_neg (by omega)]

/-- C3 amended at a concrete input: the full array of capacity 2 doubles to 4
on a push, and `array_ensure(5)` on it gives capacity 5. -/
theorem C3_growth_amended_witness :
    array_cap (array_push_back (push_all (none : Arr Nat) [1, 2]) 3) = 2 * 2 ∧
    array_cap (array_ensure (push_all (none : Arr Nat) [1, 2]) 5) = 5 := by
  have h := C3_growth_amended (push_all (none : Arr Nat) [1, 2]) 3 5
  exact ⟨h.2.1 (by decide) (by decide), h.2.2.2.1 (by decide)⟩

/-- C4: `array_clear` sets the size to 0 and leaves the handle, the capacity
and the storage as they were; and for `m` not above that capacity the test
`array_cap(a) < m` of a following `array_ensure(a, m)` is false, so
`array_resize` is not called and the array is unchanged. -/
theorem C4_clear_keeps_capacity {α : Type} (a : Arr α) (m : Nat) (hm : m ≤ array_cap a) :
    array_size (array_clear a) = 0 ∧
    array_cap (array_clear a) = array_cap a ∧
    array_data (array_clear a) = array_data a ∧
    ((array_clear a).isSome = a.isSome) ∧
    ¬ (array_cap (array_clear a) < m) ∧
    array_ensure (array_clear a) m = array_clear a := by
  have hcap : array_cap (array_clear a) = array_cap a := by cases a <;> rfl
  refine ⟨by cases a <;> rfl, hcap, by cases a <;> rfl, by cases a <;> rfl, by omega, ?_⟩
  unfold array_ensure
  rw [if_neg (by omega)]

/-- C4 at a concrete input: a three element array (capacity 4), cleared, then
`array_ensure(4)`. -/
theorem C4_clear_keeps_capacity_witness :
    array_size (array_clear (push_all (none : Arr Nat) [1, 2, 3])) = 0 ∧
    array_cap (array_clear (push_all (none : Arr Nat) [1, 2, 3])) = 4 ∧
    array_ensure (array_clear (push_all (none : Arr Nat) [1, 2, 3])) 4 =
      array_clear (push_all (none : Arr Nat) [1, 2, 3]) := by
  have h := C4_clear_keeps_capacity (push_all (none : Arr Nat) [1, 2, 3]) 4 (by decide)
  exact ⟨h.1, h.2.1.trans (by decide), h.2.2.2.2.2⟩

/-! ## Lemmas on create_shader, link_program and the reload branch -/

theorem create_shader_fst (o : shader_outcome) (src : List src_t) (type : Nat) (g : globals) :
    (create_shader o src type g).1 = if o.status = GL_FALSE then 0 else o.shader := by
  unfold create_shader
  dsimp only
  split
  · split <;> rfl
  · rfl

theorem link_program_fst (o : program_outcome) (vs fs : Nat) (g : globals) :
    (link_program o vs fs g).1 = if o.status = GL_FALSE then 0 else o.program := by
  unfold link_program
  dsimp only
  split
  · split <;> rfl
  · rfl

theorem create_shader_frame (o : shader_outcome) (src : List src_t) (type : Nat) (g : globals) :
    (create_shader o src type g).2.file_mtime = g.file_mtime ∧
    (create_shader o src type g).2.file_buffer = g.file_buffer ∧
    (o.status ≠ GL_FALSE → (create_shader o src type g).2.log_buffer = g.log_buffer) ∧
    ∃ calls, (create_shader o src type g).2.gl = g.gl ++ calls ∧
      gl_call.glCompileShader o.shader ∈ calls := by
  unfold create_shader
  dsimp only
  split
  · rename_i hs
    split
    · refine ⟨rfl, rfl, fun h => absurd hs h, ?_⟩
      refine ⟨_, by simp only [List.append_assoc]; rfl, ?_⟩
      simp
    · exact ⟨rfl, rfl, fun h => absurd hs h, _, rfl, by simp⟩
  · exact ⟨rfl, rfl, fun _ => rfl, _, rfl, by simp⟩

theorem link_program_frame (o : program_outcome) (vs fs : Nat) (g : globals) :
    (link_program o vs fs g).2.file_mtime = g.file_mtime ∧
    (link_program o vs fs g).2.file_buffer = g.file_buffer ∧
    (o.status ≠ GL_FALSE → (link_program o vs fs g).2.log_buffer = g.log_buffer) ∧
    ∃ calls, (link_program o vs fs g).2.gl = g.gl ++ calls := by
  unfold link_program
  dsimp only
  split
  · rename_i hs
    split
    · refine ⟨rfl, rfl, fun h => absurd hs h, ?_⟩
      exact ⟨_, by simp only [List.append_assoc]; rfl⟩
    · exact ⟨rfl, rfl, fun h => absurd hs h, _, rfl⟩
  · exact ⟨rfl, rfl, fun _ => rfl, _, rfl⟩

theorem timespec_ne (a b : timespec) :
    (a.tv_sec ≠ b.tv_sec ∨ a.tv_nsec ≠ b.tv_nsec) ↔ a ≠ b := by
  cases a; cases b
  simp only [ne_eq, timespec.mk.injEq]
  tauto

theorem update_file_buffer_frame (file : Option (List char)) (size : Nat) (g : globals) :
    (update_file_buffer file size g).1 = file.isSome ∧
    (update_file_buffer file size g).2.file_mtime = g.file_mtime ∧
    (update_file_buffer file size g).2.log_buffer = g.log_buffer ∧
    (update_file_buffer file size g).2.gl = g.gl := by
  cases file <;> exact ⟨rfl, rfl, rfl, rfl⟩

/-- The compile and link when both succeed. -/
theorem recompile_success (e : poll_env) (st : stat_t) (s : main_state)
    (hc : e.compile.status ≠ GL_FALSE) (hcs : e.compile.shader ≠ 0)
    (hl : e.link.status ≠ GL_FALSE) (hlp : e.link.program ≠ 0) :
    (recompile e st s).program = e.link.program ∧
    array_size (recompile e st s).g.log_buffer = 0 ∧
    (recompile e st s).g.file_mtime = st.st_mtim := by
  unfold recompile
  simp only [create_shader_fst, link_program_fst, if_neg hc, if_neg hl, if_pos hcs, if_pos hlp]
  refine ⟨trivial, ?_, trivial⟩
  generalize (link_program _ _ _ _).2.log_buffer = lb
  cases lb <;> rfl

/-- The compile and link when one of them fails. -/
theorem recompile_failure (e : poll_env) (st : stat_t) (s : main_state) (hf : attempt_fails e) :
    (recompile e st s).program = 0 ∧
    (recompile e st s).g.file_mtime = s.g.file_mtime := by
  have hm : ∀ g : globals, (if s.program ≠ 0 then
      ({ g with gl := g.gl ++ [gl_call.glDeleteProgram s.program] } : globals) else g).file_mtime
        = g.file_mtime := by
    intro g; split <;> rfl
  unfold recompile
  simp only [create_shader_fst, link_program_fst]
  by_cases hc : e.compile.status = GL_FALSE
  · simp only [hc, if_true, ne_eq, not_true_eq_false, if_false]
    exact ⟨trivial, by rw [(create_shader_frame _ _ _ _).1, hm]⟩
  · by_cases hcs : e.compile.shader = 0
    · simp only [hc, if_false, hcs, ne_eq, not_true_eq_false]
      exact ⟨trivial, by rw [(create_shader_frame _ _ _ _).1, hm]⟩
    · have hl : (if e.link.status = GL_FALSE then 0 else e.link.program) = 0 := by
        rcases hf with h | h | h | h
        · exact absurd h hc
        · exact absurd h hcs
        · rw [if_pos h]
        · split
          · rfl
          · exact h
      simp only [hc, if_false, ne_eq, hcs, not_false_eq_true, if_true, hl, not_true_eq_false]
      exact ⟨trivial, by rw [(link_program_frame _ _ _ _).1, (create_shader_frame _ _ _ _).1, hm]⟩

/-- Once the file is read the compile is attempted: the GL trace grows by calls
among which is `glCompileShader`. -/
theorem recompile_trace (e : poll_env) (st : stat_t) (s : main_state) :
    ∃ calls, (recompile e st s).g.gl = s.g.gl ++ calls ∧
      gl_call.glCompileShader e.compile.shader ∈ calls := by
  have hdel : ∃ pre, (if s.program ≠ 0 then
      ({ s.g with gl := s.g.gl ++ [gl_call.glDeleteProgram s.program] } : globals)
        else s.g).gl = s.g.gl ++ pre := by
    split
    · exact ⟨_, rfl⟩
    · exact ⟨[], by simp⟩
  obtain ⟨pre, hpre⟩ := hdel
  unfold recompile
  dsimp only
  generalize hg0 : (if s.program ≠ 0 then
      ({ s.g with gl := s.g.gl ++ [gl_call.glDeleteProgram s.program] } : globals)
        else s.g) = g0 at hpre
  obtain ⟨_, _, _, calls, hgl, hmem⟩ := create_shader_frame e.compile
    [src_t.fs_header_src, src_t.file_buffer (array_data s.g.file_buffer), src_t.fs_footer_src]
    GL_FRAGMENT_SHADER g0
  split
  · obtain ⟨_, _, _, calls2, hgl2⟩ := link_program_frame e.link s.vs
      (create_shader e.compile
        [src_t.fs_header_src, src_t.file_buffer (array_data s.g.file_buffer), src_t.fs_footer_src]
        GL_FRAGMENT_SHADER g0).1
      (create_shader e.compile
        [src_t.fs_header_src, src_t.file_buffer (array_data s.g.file_buffer), src_t.fs_footer_src]
        GL_FRAGMENT_SHADER g0).2
    split
    · exact ⟨pre ++ calls ++ calls2, by simp only [hgl2, hgl, hpre, List.append_assoc],
        by simp [hmem]⟩
    · exact ⟨pre ++ calls ++ calls2, by simp only [hgl2, hgl, hpre, List.append_assoc],
        by simp [hmem]⟩
  · exact ⟨pre ++ calls, by simp only [hgl, hpre, List.append_assoc], by simp [hmem]⟩

/-- The reload branch when `stat` succeeds with a timestamp other than the
baseline and the file is read: it is the compile and link on the refreshed
file buffer. -/
theorem reload_attempt (e : poll_env) (s : main_state) (st : stat_t) (content : List char)
    (hstat : e.stat = some st) (hdiff : st.st_mtim ≠ s.g.file_mtime)
    (hfile : e.file = some content) :
    reload e s =
      recompile e st { s with g := (update_file_buffer (some content) st.st_size s.g).2 } := by
  unfold reload
  rw [hstat, hfile]
  simp only [if_pos ((timespec_ne _ _).2 hdiff), (update_file_buffer_frame _ _ _).1,
    Option.isSome_some, if_true]

/-- The reload branch when no compile is attempted: only `file_buffer` can
differ afterwards. -/
theorem reload_skip (e : poll_env) (s : main_state)
    (hno : e.stat = none ∨ (∃ st, e.stat = some st ∧ st.st_mtim = s.g.file_mtime) ∨
      e.file = none) :
    (reload e s).program = s.program ∧ (reload e s).g.log_buffer = s.g.log_buffer ∧
    (reload e s).g.file_mtime = s.g.file_mtime ∧ (reload e s).g.gl = s.g.gl := by
  unfold reload
  cases hst : e.stat with
  | none => exact ⟨rfl, rfl, rfl, rfl⟩
  | some st =>
    dsimp only
    by_cases hd : st.st_mtim.tv_sec ≠ s.g.file_mtime.tv_sec ∨
        st.st_mtim.tv_nsec ≠ s.g.file_mtime.tv_nsec
    · rw [if_pos hd]
      have hfile : e.file = none := by
        rcases hno with h | ⟨st2, h1, h2⟩ | h
        · rw [hst] at h; cases h
        · rw [hst] at h1
          cases h1
          exact absurd h2 ((timespec_ne _ _).1 hd)
        · exact h
      rw [hfile]
      exact ⟨rfl, rfl, rfl, rfl⟩
    · rw [if_neg hd]
      exact ⟨rfl, rfl, rfl, rfl⟩

theorem poll_due (e : poll_env) (s : main_state) (hdue : s.last_read ≥ FILE_UPDATE_RATE) :
    poll e s = { reload e s with last_read := 0 } := by
  unfold poll
  rw [if_pos hdue]

/-- No path of an iteration whose driver answers are failing ones moves the
baseline. -/
theorem iteration_fails_mtime (e : poll_env) (s : main_state) (hf : attempt_fails e) :
    (iteration e s).g.file_mtime = s.g.file_mtime := by
  unfold iteration frame_end poll
  dsimp only
  split
  · dsimp only
    unfold reload
    cases e.stat with
    | none => rfl
    | some st =>
      dsimp only
      split
      · cases e.file with
        | none => rfl
        | some content =>
          simp only [(update_file_buffer_frame _ _ _).1, Option.isSome_some, if_true]
          rw [(recompile_failure e st _ hf).2]
          exact (update_file_buffer_frame _ _ _).2.1
      · rfl
  · rfl

theorem run_fails_mtime (es : List poll_env) (s : main_state)
    (hes : ∀ e ∈ es, attempt_fails e) : (run es s).g.file_mtime = s.g.file_mtime := by
  induction es generalizing s with
  | nil => rfl
  | cons e es ih =>
    simp only [run, List.foldl_cons] at ih ⊢
    rw [ih (iteration e s) (fun e' h' => hes e' (List.mem_cons_of_mem _ h'))]
    exact iteration_fails_mtime e s (hes e (List.mem_cons_self _ _))

/-! ## Claims on the hot reload -/

/-- C5: at a due poll in which `stat` succeeds with a timestamp other than the
baseline, the file is read, and compile and link both succeed (status not
`GL_FALSE`, object name not 0), afterwards the active program is the newly
linked program and is not 0, the log has size 0, and the baseline is the
timestamp `stat` returned. -/
theorem C5_successful_reload (e : poll_env) (s : main_state) (st : stat_t) (content : List char)
    (hdue : s.last_read ≥ FILE_UPDATE_RATE)
    (hstat : e.stat = some st) (hdiff : st.st_mtim ≠ s.g.file_mtime)
    (hfile : e.file = some content)
    (hcompile : e.compile.status ≠ GL_FALSE ∧ e.compile.shader ≠ 0)
    (hlink : e.link.status ≠ GL_FALSE ∧ e.link.program ≠ 0) :
    (poll e s).program = e.link.program ∧
    (poll e s).program ≠ 0 ∧
    array_size (poll e s).g.log_buffer = 0 ∧
    (poll e s).g.file_mtime = st.st_mtim := by
  rw [poll_due e s hdue, reload_attempt e s st content hstat hdiff hfile]
  obtain ⟨h1, h2, h3⟩ := recompile_success e st
    { s with g := (update_file_buffer (some content) st.st_size s.g).2 }
    hcompile.1 hcompile.2 hlink.1 hlink.2
  exact ⟨h1, by rw [h1]; exact hlink.2, h2, h3⟩

/-- C7: at a due poll in which no compile is attempted (`stat` fails, or the
timestamp equals the baseline, or the file cannot be opened), the active
program, the log buffer (handle, size, capacity and bytes) and the baseline are
those before the poll, and no GL call is made. -/
theorem C7_no_attempt_no_change (e : poll_env) (s : main_state)
    (hdue : s.last_read ≥ FILE_UPDATE_RATE)
    (hno : e.stat = none ∨ (∃ st, e.stat = some st ∧ st.st_mtim = s.g.file_mtime) ∨
      e.file = none) :
    (poll e s).program = s.program ∧
    (poll e s).g.log_buffer = s.g.log_buffer ∧
    (poll e s).g.file_mtime = s.g.file_mtime ∧
    (poll e s).g.gl = s.g.gl := by
  rw [poll_due e s hdue]
  exact reload_skip e s hno

/-- C5 at a concrete input: program 7 active, baseline (100, 0), the file at
(101, 0) compiles and links to program 4. -/
theorem C5_successful_reload_witness :
    (poll sample_env_ok sample_state).program = 4 ∧
    (poll sample_env_ok sample_state).program ≠ 0 ∧
    array_size (poll sample_env_ok sample_state).g.log_buffer = 0 ∧
    (poll sample_env_ok sample_state).g.file_mtime = { tv_sec := 101, tv_nsec := 0 } :=
  C5_successful_reload sample_env_ok sample_state sample_stat [120, 59] (by decide) rfl
    (by decide) rfl (by decide) (by decide)

/-- C7 at a concrete input: the file at (101, 0) cannot be opened. -/
theorem C7_no_attempt_no_change_witness :
    (poll sample_env_unreadable sample_state).program = 7 ∧
    (poll sample_env_unreadable sample_state).g.log_buffer = none ∧
    (poll sample_env_unreadable sample_state).g.file_mtime = { tv_sec := 100, tv_nsec := 0 } ∧
    (poll sample_env_unreadable sample_state).g.gl = [] :=
  C7_no_attempt_no_change sample_env_unreadable sample_state (by decide) (Or.inr (Or.inr rfl))

/-- C6 as stated fails in its last part: after a failed attempt at timestamp
(101, 0), nine frames later the poll is due and `stat` still reports
(101, 0), other than the baseline (100, 0), but `fopen` fails; no GL call is made
in that poll, so no compile is attempted. -/
theorem C6_no_retry_when_unreadable :
    (poll sample_env_error sample_state).program = 0 ∧
    (run (List.replicate 9 sample_env_error)
      (iteration sample_env_error sample_state)).last_read ≥ FILE_UPDATE_RATE ∧
    (run (List.replicate 9 sample_env_error)
      (iteration sample_env_error sample_state)).g.file_mtime = { tv_sec := 100, tv_nsec := 0 } ∧
    sample_env_unreadable.stat = some sample_stat ∧
    (poll sample_env_unreadable (run (List.replicate 9 sample_env_error)
      (iteration sample_env_error sample_state))).g.gl =
      (run (List.replicate 9 sample_env_error) (iteration sample_env_error sample_state)).g.gl ∧
    compile_attempted sample_env_unreadable (run (List.replicate 9 sample_env_error)
      (iteration sample_env_error sample_state)) = false := by
  decide

/-- C6 amended: at a due poll in which the timestamp differs from the baseline,
the file is read and compile or link fails, afterwards there is no active
program and the baseline is unchanged; and at every later due poll, as long
as every attempt in between fails, if `stat` reports that same timestamp and
the file is read then the compile is attempted again (the GL trace grows by
calls among which is `glCompileShader`). -/
theorem C6_failed_reload_retried (e : poll_env) (s : main_state) (st : stat_t)
    (content : List char) (es : List poll_env) (e2 : poll_env) (st2 : stat_t)
    (content2 : List char)
    (hdue : s.last_read ≥ FILE_UPDATE_RATE)
    (hstat : e.stat = some st) (hdiff : st.st_mtim ≠ s.g.file_mtime)
    (hfile : e.file = some content) (hfail : attempt_fails e)
    (hes : ∀ e1 ∈ es, attempt_fails e1)
    (hdue2 : (run es (iteration e s)).last_read ≥ FILE_UPDATE_RATE)
    (hstat2 : e2.stat = some st2) (hsame : st2.st_mtim = st.st_mtim)
    (hfile2 : e2.file = some content2) :
    (poll e s).program = 0 ∧
    (poll e s).g.file_mtime = s.g.file_mtime ∧
    compile_attempted e2 (run es (iteration e s)) = true ∧
    ∃ calls, (poll e2 (run es (iteration e s))).g.gl = (run es (iteration e s)).g.gl ++ calls ∧
      gl_call.glCompileShader e2.compile.shader ∈ calls := by
  have hbase : (run es (iteration e s)).g.file_mtime = s.g.file_mtime := by
    rw [run_fails_mtime es _ hes, iteration_fails_mtime e s hfail]
  have hdiff2 : st2.st_mtim ≠ (run es (iteration e s)).g.file_mtime := by
    rw [hbase, hsame]; exact hdiff
  refine ⟨?_, ?_, ?_, ?_⟩
  · rw [poll_due e s hdue, reload_attempt e s st content hstat hdiff hfile]
    exact (recompile_failure e st _ hfail).1
  · rw [poll_due e s hdue, reload_attempt e s st content hstat hdiff hfile]
    rw [(recompile_failure e st _ hfail).2]
    exact (update_file_buffer_frame _ _ _).2.1
  · unfold compile_attempted
    rw [hstat2, hfile2]
    have := (timespec_ne _ _).2 hdiff2
    simp only [Option.isSome_some, Bool.and_true, Bool.or_eq_true, decide_eq_true_eq]
    exact this
  · rw [poll_due e2 _ hdue2, reload_attempt e2 _ st2 content2 hstat2 hdiff2 hfile2]
    obtain ⟨calls, h1, h2⟩ := recompile_trace e2 st2
      { run es (iteration e s) with
        g := (update_file_buffer (some content2) st2.st_size (run es (iteration e s)).g).2 }
    refine ⟨calls, ?_, h2⟩
    rw [show ∀ t : main_state, ({ t with last_read := 0 } : main_state).g = t.g from fun _ => rfl,
      h1]
    exact congrArg (· ++ calls) (update_file_buffer_frame _ _ _).2.2.2

/-- C6 amended at a concrete input: program 7 active, the file at (101, 0)
fails to compile, and is compiled again at the next due poll nine frames
later. -/
theorem C6_failed_reload_retried_witness :
    (poll sample_env_error sample_state).program = 0 ∧
    (poll sample_env_error sample_state).g.file_mtime = { tv_sec := 100, tv_nsec := 0 } ∧
    compile_attempted sample_env_error (run (List.replicate 9 sample_env_error)
      (iteration sample_env_error sample_state)) = true := by
  have h := C6_failed_reload_retried sample_env_error sample_state sample_stat [120, 59]
    (List.replicate 9 sample_env_error) sample_env_error sample_stat [120, 59]
    (by decide) rfl (by decide) rfl (by decide) (by decide) (by decide) rfl rfl rfl
  exact ⟨h.1, h.2.1, h.2.2.1⟩

/-! ## The diagnostic log and the outcome of the most recent attempt -/

/-- The size of the log buffer after the failure branch of `create_shader` and
`link_program`, for a positive info log length: the written length. -/
theorem log_assign_size (log : Arr char) (text : List char) (len w : Int)
    (hlen : 0 < len) (hmax : len ≤ INT_MAX) (hw0 : 0 < w) (hwmax : w ≤ INT_MAX) :
    array_size (array_set_size (array_write (array_ensure (array_clear log) (size_t_of_int len))
      text) (size_t_of_int w)) = w.toNat := by
  rw [size_t_of_int_eq len (by omega) hmax, size_t_of_int_eq w (by omega) hwmax]
  have hsome : ∃ h, array_ensure (array_clear log) len.toNat = some h := by
    unfold array_ensure
    split
    · cases array_clear log <;> exact ⟨_, rfl⟩
    · rename_i hcap
      cases hcl : array_clear log with
      | none =>
        rw [hcl] at hcap
        simp only [array_cap] at hcap
        omega
      | some h => exact ⟨h, rfl⟩
  obtain ⟨h, hh⟩ := hsome
  rw [hh]
  rfl

theorem create_shader_fail_log (o : shader_outcome) (src : List src_t) (type : Nat) (g : globals)
    (hs : o.status = GL_FALSE) (hlen : 0 < o.info_log_length)
    (hmax : o.info_log_length ≤ INT_MAX) (hw0 : 0 < o.written) (hwmax : o.written ≤ INT_MAX) :
    array_size (create_shader o src type g).2.log_buffer = o.written.toNat := by
  unfold create_shader
  dsimp only
  rw [if_pos hs, if_pos (show o.info_log_length > 0 from hlen)]
  exact log_assign_size _ _ _ _ hlen hmax hw0 hwmax

theorem link_program_fail_log (o : program_outcome) (vs fs : Nat) (g : globals)
    (hs : o.status = GL_FALSE) (hlen : 0 < o.info_log_length)
    (hmax : o.info_log_length ≤ INT_MAX) (hw0 : 0 < o.written) (hwmax : o.written ≤ INT_MAX) :
    array_size (link_program o vs fs g).2.log_buffer = o.written.toNat := by
  unfold link_program
  dsimp only
  rw [if_pos hs, if_pos (show o.info_log_length > 0 from hlen)]
  exact log_assign_size _ _ _ _ hlen hmax hw0 hwmax

/-- A failed `create_shader` for which the reported info log length is not
positive returns 0 and leaves the log buffer as it was. -/
theorem create_shader_no_log (o : shader_outcome) (src : List src_t) (type : Nat) (g : globals)
    (hs : o.status = GL_FALSE) (hlen : o.info_log_length ≤ 0) :
    (create_shader o src type g).1 = 0 ∧
    (create_shader o src type g).2.log_buffer = g.log_buffer := by
  unfold create_shader
  dsimp only
  rw [if_pos hs, if_neg (show ¬ o.info_log_length > 0 by omega)]
  exact ⟨rfl, rfl⟩

/-- A failed `link_program` for which the reported info log length is not
positive returns 0 and leaves the log buffer as it was. -/
theorem link_program_no_log (o : program_outcome) (vs fs : Nat) (g : globals)
    (hs : o.status = GL_FALSE) (hlen : o.info_log_length ≤ 0) :
    (link_program o vs fs g).1 = 0 ∧
    (link_program o vs fs g).2.log_buffer = g.log_buffer := by
  unfold link_program
  dsimp only
  rw [if_pos hs, if_neg (show ¬ o.info_log_length > 0 by omega)]
  exact ⟨rfl, rfl⟩

/-- The compile and link when the failing step has no info log: no program
comes out and the log buffer is the one before. -/
theorem recompile_no_log (e : poll_env) (st : stat_t) (s : main_state)
    (hf : failed_without_log e) :
    (recompile e st s).program = 0 ∧ (recompile e st s).g.log_buffer = s.g.log_buffer := by
  have hm : ∀ g : globals, (if s.program ≠ 0 then
      ({ g with gl := g.gl ++ [gl_call.glDeleteProgram s.program] } : globals) else g).log_buffer
        = g.log_buffer := by
    intro g; split <;> rfl
  unfold recompile
  simp only [create_shader_fst, link_program_fst]
  rcases hf with ⟨hc, hlen⟩ | ⟨hc, hl, hlen⟩
  · simp only [hc, if_true, ne_eq, not_true_eq_false, if_false]
    exact ⟨trivial, by rw [(create_shader_no_log _ _ _ _ hc hlen).2, hm]⟩
  · by_cases hcs : e.compile.shader = 0
    · simp only [hc, if_false, hcs, ne_eq, not_true_eq_false]
      exact ⟨trivial, by rw [(create_shader_frame _ _ _ _).2.2.1 hc, hm]⟩
    · simp only [hc, if_false, ne_eq, hcs, not_false_eq_true, if_true, hl, not_true_eq_false]
      exact ⟨trivial, by
        rw [(link_program_no_log _ _ _ _ hl hlen).2, (create_shader_frame _ _ _ _).2.2.1 hc, hm]⟩

/-- A poll whose attempt, if one is made, fails without an info log: the log
buffer is the one before the poll, and after an attempt there is no program. -/
theorem poll_no_log (e : poll_env) (s : main_state) (hf : failed_without_log e) :
    (poll e s).g.log_buffer = s.g.log_buffer ∧
    (attempt_made e s = true → (poll e s).program = 0) := by
  by_cases hdue : s.last_read ≥ FILE_UPDATE_RATE
  · rw [poll_due e s hdue]
    simp only [attempt_made, hdue, decide_True, Bool.true_and]
    cases hst : e.stat with
    | none =>
      refine ⟨(reload_skip e s (Or.inl hst)).2.1, ?_⟩
      intro h
      simp [compile_attempted, hst] at h
    | some st =>
      by_cases hdiff : st.st_mtim = s.g.file_mtime
      · refine ⟨(reload_skip e s (Or.inr (Or.inl ⟨st, hst, hdiff⟩))).2.1, ?_⟩
        intro h
        have hn := (timespec_ne st.st_mtim s.g.file_mtime).not.2 (not_not.2 hdiff)
        simp only [not_or, not_not, ne_eq] at hn
        simp [compile_attempted, hst, hn.1, hn.2] at h
      · cases hfile : e.file with
        | none =>
          refine ⟨(reload_skip e s (Or.inr (Or.inr hfile))).2.1, ?_⟩
          intro h
          simp [compile_attempted, hst, hfile] at h
        | some content =>
          rw [reload_attempt e s st content hst hdiff hfile]
          obtain ⟨r1, r2⟩ := recompile_no_log e st
            { s with g := (update_file_buffer (some content) st.st_size s.g).2 } hf
          refine ⟨?_, fun _ => r1⟩
          show (recompile e st _).g.log_buffer = s.g.log_buffer
          rw [r2]
          exact (update_file_buffer_frame _ _ _).2.2.1
  · have hp : poll e s = s := by unfold poll; rw [if_neg hdue]
    rw [hp]
    refine ⟨rfl, ?_⟩
    intro h
    simp [attempt_made, hdue] at h

/-- After the compile and link, with a driver that logs its failures: the log
is not empty exactly when no program came out. -/
theorem recompile_log_iff (e : poll_env) (st : stat_t) (s : main_state)
    (hd : driver_logs_failures e) :
    0 < array_size (recompile e st s).g.log_buffer ↔ (recompile e st s).program = 0 := by
  obtain ⟨hcs, hlp, hc, hl⟩ := hd
  unfold recompile
  simp only [create_shader_fst, link_program_fst]
  by_cases hcf : e.compile.status = GL_FALSE
  · obtain ⟨c1, c2, c3, c4⟩ := hc hcf
    simp only [hcf, if_true, ne_eq, not_true_eq_false, if_false, iff_true]
    rw [create_shader_fail_log _ _ _ _ hcf c1 c2 c3 c4]
    omega
  · by_cases hlf : e.link.status = GL_FALSE
    · obtain ⟨l1, l2, l3, l4⟩ := hl hlf
      simp only [hcf, if_false, ne_eq, hcs, not_false_eq_true, if_true, hlf, not_true_eq_false,
        iff_true]
      rw [link_program_fail_log _ _ _ _ hlf l1 l2 l3 l4]
      omega
    · simp only [hcf, if_false, ne_eq, hcs, not_false_eq_true, if_true, hlf, hlp, iff_false]
      generalize (link_program _ _ _ _).2.log_buffer = lb
      cases lb <;> simp [array_clear, array_size]

theorem startup_log (quad_vs quad_fs : shader_outcome) (quad : program_outcome)
    (main_vs : shader_outcome) (s0 : main_state)
    (h : startup quad_vs quad_fs quad main_vs = some s0) : s0.g.log_buffer = none := by
  unfold startup at h
  simp only [create_shader_fst, link_program_fst] at h
  by_cases h1 : quad_vs.status = GL_FALSE
  · simp [h1] at h
  · by_cases h2 : quad_fs.status = GL_FALSE
    · simp [h1, h2] at h
    · by_cases h3 : quad.status = GL_FALSE
      · simp [h1, h2, h3] at h
      · by_cases h4 : main_vs.status = GL_FALSE
        · simp [h1, h2, h3, h4] at h
        · simp only [h1, h2, h3, h4, if_false] at h
          split at h
          · cases h
          · split at h
            · cases h
            · split at h
              · cases h
              · split at h
                · cases h
                · cases h
                  dsimp only
                  rw [(create_shader_frame _ _ _ _).2.2.1 h4]
                  dsimp only
                  rw [(link_program_frame _ _ _ _).2.2.1 h3, (create_shader_frame _ _ _ _).2.2.1 h2,
                    (create_shader_frame _ _ _ _).2.2.1 h1]
                  rfl

/-- One iteration keeps the relation between the log and the outcome of the
most recent attempt. -/
theorem iteration_log_iff (e : poll_env) (s : main_state) (b : Bool)
    (hd : driver_logs_failures e) (hinv : 0 < array_size s.g.log_buffer ↔ b = true) :
    0 < array_size (iteration e s).g.log_buffer ↔
      (if attempt_made e s then decide ((poll e s).program = 0) else b) = true := by
  have hfe : (iteration e s).g = (poll e s).g := rfl
  rw [hfe]
  by_cases hdue : s.last_read ≥ FILE_UPDATE_RATE
  · rw [poll_due e s hdue]
    simp only [attempt_made, hdue, decide_True, Bool.true_and]
    cases hst : e.stat with
    | none =>
      have hca : compile_attempted e s = false := by simp [compile_attempted, hst]
      rw [hca]
      simp only [Bool.false_eq_true, if_false]
      rw [(reload_skip e s (Or.inl hst)).2.1]
      exact hinv
    | some st =>
      by_cases hdiff : st.st_mtim = s.g.file_mtime
      · have hca : compile_attempted e s = false := by
          have := (timespec_ne st.st_mtim s.g.file_mtime).not.2 (not_not.2 hdiff)
          simp only [compile_attempted, hst]
          simp only [not_or, not_not, ne_eq] at this
          simp [this.1, this.2]
        rw [hca]
        simp only [Bool.false_eq_true, if_false]
        rw [(reload_skip e s (Or.inr (Or.inl ⟨st, hst, hdiff⟩))).2.1]
        exact hinv
      · cases hfile : e.file with
        | none =>
          have hca : compile_attempted e s = false := by simp [compile_attempted, hst, hfile]
          rw [hca]
          simp only [Bool.false_eq_true, if_false]
          rw [(reload_skip e s (Or.inr (Or.inr hfile))).2.1]
          exact hinv
        | some content =>
          have hca : compile_attempted e s = true := by
            have := (timespec_ne st.st_mtim s.g.file_mtime).2 hdiff
            simp only [compile_attempted, hst, hfile, Option.isSome_some, Bool.and_true,
              Bool.or_eq_true, decide_eq_true_eq]
            exact this
          rw [hca, reload_attempt e s st content hst hdiff hfile]
          simp only [if_true, decide_eq_true_eq]
          exact recompile_log_iff e st _ hd
  · have hp : poll e s = s := by unfold poll; rw [if_neg hdue]
    rw [hp]
    simp only [attempt_made, hdue, decide_False, Bool.false_and, Bool.false_eq_true, if_false]
    exact hinv

theorem run_tracking_log_iff (es : List poll_env) (p : main_state × Bool)
    (hes : ∀ e ∈ es, driver_logs_failures e)
    (hinv : 0 < array_size p.1.g.log_buffer ↔ p.2 = true) :
    0 < array_size (es.foldl (fun (p : main_state × Bool) e =>
        (iteration e p.1,
          if attempt_made e p.1 then decide ((poll e p.1).program = 0) else p.2)) p).1.g.log_buffer ↔
      (es.foldl (fun (p : main_state × Bool) e =>
        (iteration e p.1,
          if attempt_made e p.1 then decide ((poll e p.1).program = 0) else p.2)) p).2 = true := by
  induction es generalizing p with
  | nil => exact hinv
  | cons e es ih =>
    simp only [List.foldl_cons]
    apply ih _ (fun e1 h1 => hes e1 (List.mem_cons_of_mem _ h1))
    exact iteration_log_iff e p.1 p.2 (hes e (List.mem_cons_self _ _)) hinv

/-- The function `push_quad` on a well formed vertex buffer: six more elements
in use, the old ones followed by the six vertices of the quad. -/
theorem push_quad_spec {F : Type} [float_t F] (vb : Arr (vertex_t F)) (r uv : rect_t F)
    (color : Nat) (hwf : array_wf vb) :
    array_wf (push_quad vb r uv color) ∧
    array_size (push_quad vb r uv color) = array_size vb + 6 ∧
    array_items (push_quad vb r uv color) =
      array_items vb ++ (quad_vertices r uv color).map some := by
  have h := push_all_spec (quad_vertices r uv color) vb hwf
  exact h

theorem text_fold_spec {F : Type} [float_t F] (get_glyph : char → glyph_t F) (x0 : F)
    (s : List char) (c : text_cursor F) (hwf : array_wf c.vertex_buffer) :
    array_wf (s.foldl (text_step get_glyph x0) c).vertex_buffer ∧
    array_size (s.foldl (text_step get_glyph x0) c).vertex_buffer =
      array_size c.vertex_buffer + 6 * (s.filter (fun ch => ch ≠ 10)).length ∧
    (array_items (s.foldl (text_step get_glyph x0) c).vertex_buffer).take
      (array_size c.vertex_buffer) = array_items c.vertex_buffer := by
  induction s generalizing c with
  | nil =>
    refine ⟨hwf, by simp, ?_⟩
    simp [array_items]
  | cons ch s ih =>
    simp only [List.foldl_cons]
    by_cases hnl : ch = 10
    · have hstep : (text_step get_glyph x0 c ch).vertex_buffer = c.vertex_buffer := by
        simp [text_step, hnl]
      obtain ⟨i1, i2, i3⟩ := ih (text_step get_glyph x0 c ch) (by rw [hstep]; exact hwf)
      rw [hstep] at i2 i3
      refine ⟨i1, ?_, i3⟩
      rw [i2]
      simp [hnl]
    · have hstep : (text_step get_glyph x0 c ch).vertex_buffer = push_quad c.vertex_buffer
          { x := float_t.add c.x (float_t.of_int (get_glyph ch).offset_x),
            y := float_t.sub c.y (float_t.of_int (get_glyph ch).offset_y),
            w := float_t.of_int (get_glyph ch).width,
            h := float_t.of_int (get_glyph ch).height }
          (get_glyph ch).uv 0xFFFFFFFF := by
        simp [text_step, hnl]
      obtain ⟨q1, q2, q3⟩ := push_quad_spec c.vertex_buffer
          { x := float_t.add c.x (float_t.of_int (get_glyph ch).offset_x),
            y := float_t.sub c.y (float_t.of_int (get_glyph ch).offset_y),
            w := float_t.of_int (get_glyph ch).width,
            h := float_t.of_int (get_glyph ch).height }
          (get_glyph ch).uv 0xFFFFFFFF hwf
      rw [← hstep] at q1 q2 q3
      obtain ⟨i1, i2, i3⟩ := ih (text_step get_glyph x0 c ch) q1
      refine ⟨i1, ?_, ?_⟩
      · rw [i2, q2]
        simp [hnl]
        omega
      · have hlen := array_items_length c.vertex_buffer hwf
        have hl : List.take (array_size c.vertex_buffer)
            (List.take (array_size (text_step get_glyph x0 c ch).vertex_buffer)
              (array_items (s.foldl (text_step get_glyph x0)
                (text_step get_glyph x0 c ch)).vertex_buffer)) =
            List.take (array_size c.vertex_buffer)
              (array_items (s.foldl (text_step get_glyph x0)
                (text_step get_glyph x0 c ch)).vertex_buffer) := by
          rw [List.take_take, q2]
          congr 1
          omega
        rw [← hl, i3, q3, List.take_append_of_le_length (by omega),
          List.take_of_length_le (by omega)]

/-- The loop of `push_text` from index `i` with the fuel `len - i` it needs is
the fold over the bytes from `i` on. -/
theorem push_text_loop_eq_fold {F : Type} [float_t F] (get_glyph : char → glyph_t F)
    (str : List char) (x0 : F) (fuel i : Nat) (x y : F) (vb : Arr (vertex_t F))
    (hfuel : fuel = str.length - i) (hi : i ≤ str.length) :
    push_text_loop get_glyph str str.length x0 fuel i x y vb =
      ((str.drop i).foldl (text_step get_glyph x0)
        { x := x, y := y, vertex_buffer := vb }).vertex_buffer := by
  induction fuel generalizing i x y vb with
  | zero =>
    have : str.drop i = [] := List.drop_eq_nil_of_le (by omega)
    rw [this]
    rfl
  | succ fuel ih =>
    have hlt : i < str.length := by omega
    rw [List.drop_eq_getElem_cons hlt, List.foldl_cons]
    have hget : str.getD i 0 = str[i] := by
      simp [List.getD_eq_getElem?_getD, List.getElem?_eq_getElem hlt]
    unfold push_text_loop
    rw [if_pos hlt, hget]
    by_cases hnl : str[i] = 10
    · rw [if_pos hnl, ih (i + 1) _ _ _ (by omega) (by omega)]
      simp only [text_step, if_pos hnl]
    · rw [if_neg hnl]
      dsimp only
      rw [ih (i + 1) _ _ _ (by omega) (by omega)]
      simp only [text_step, if_neg hnl, make_rect]

/-- C9: `push_quad(r, uv, c)` on a vertex buffer leaves the elements in use as
they are and appends exactly six vertices, all of colour `c`: top-left,
top-right, bottom-right, bottom-right, bottom-left, top-left, each with the
position and the UV coordinate of that corner.  The two triangles share the
corners top-left and bottom-right, and in exact arithmetic (`ri`, `vbi`) both
have the same doubled signed area `w * h`, hence the same rotational
direction. -/
theorem C9_push_quad_six_vertices {F : Type} [float_t F] (vb : Arr (vertex_t F))
    (r uv : rect_t F) (c : Nat) (vbi : Arr (vertex_t Int)) (ri uvi : rect_t Int)
    (hwf : array_wf vb) (hwfi : array_wf vbi) :
    array_size (push_quad vb r uv c) = array_size vb + 6 ∧
    array_items (push_quad vb r uv c) = array_items vb ++
      [ some { pos := { x := r.x, y := r.y }, uv := { x := uv.x, y := uv.y }, color := c },
        some { pos := { x := float_t.add r.x r.w, y := r.y },
               uv := { x := float_t.add uv.x uv.w, y := uv.y }, color := c },
        some { pos := { x := float_t.add r.x r.w, y := float_t.add r.y r.h },
               uv := { x := float_t.add uv.x uv.w, y := float_t.add uv.y uv.h }, color := c },
        some { pos := { x := float_t.add r.x r.w, y := float_t.add r.y r.h },
               uv := { x := float_t.add uv.x uv.w, y := float_t.add uv.y uv.h }, color := c },
        some { pos := { x := r.x, y := float_t.add r.y r.h },
               uv := { x := uv.x, y := float_t.add uv.y uv.h }, color := c },
        some { pos := { x := r.x, y := r.y }, uv := { x := uv.x, y := uv.y }, color := c } ] ∧
    triangle_areas2 (((array_items (push_quad vbi ri uvi c)).drop (array_size vbi)).filterMap id) =
      [ri.w * ri.h, ri.w * ri.h] := by
  obtain ⟨_, h2, h3⟩ := push_quad_spec vb r uv c hwf
  refine ⟨h2, h3, ?_⟩
  obtain ⟨_, _, k3⟩ := push_quad_spec vbi ri uvi c hwfi
  rw [k3, List.drop_append_of_le_length (by rw [array_items_length vbi hwfi]),
    List.drop_of_length_le (by rw [array_items_length vbi hwfi])]
  simp only [quad_vertices, List.nil_append, List.map_cons, List.map_nil, List.filterMap_cons,
    List.filterMap_nil, id, triangle_areas2, signed_area2, make_vertex, make_vec2, float_t.add]
  simp only [List.cons.injEq, and_true]
  constructor <;> ring

/-- C9 at a concrete input: the quad of the rect (10, 20, 3, 4) with UV rect
(0, 0, 1, 1) pushed behind one vertex already in the buffer. -/
theorem C9_push_quad_six_vertices_witness :
    array_size (push_quad
      (push_all none [({ pos := { x := 0, y := 0 }, uv := { x := 0, y := 0 }, color := 1 } :
        vertex_t Int)])
      { x := 10, y := 20, w := 3, h := 4 } { x := 0, y := 0, w := 1, h := 1 } 255) = 1 + 6 ∧
    array_get (push_quad
      (push_all none [({ pos := { x := 0, y := 0 }, uv := { x := 0, y := 0 }, color := 1 } :
        vertex_t Int)])
      { x := 10, y := 20, w := 3, h := 4 } { x := 0, y := 0, w := 1, h := 1 } 255) 3 =
      some { pos := { x := 13, y := 24 }, uv := { x := 1, y := 1 }, color := 255 } := by
  have h := C9_push_quad_six_vertices
    (push_all none [({ pos := { x := 0, y := 0 }, uv := { x := 0, y := 0 }, color := 1 } :
      vertex_t Int)])
    { x := 10, y := 20, w := 3, h := 4 } { x := 0, y := 0, w := 1, h := 1 } 255
    none { x := 10, y := 20, w := 3, h := 4 } { x := 0, y := 0, w := 1, h := 1 }
    (by decide) (by decide)
  exact ⟨h.1, by decide⟩

/-- C10: `push_text(s, len, x0, y0)` with `len` the length of `s` is the left
fold over `s` from the cursor `(x0, y0)` in which a newline emits nothing,
resets the horizontal cursor to `x0` and adds 20 to the vertical cursor, and
any other byte pushes one quad for its glyph and advances the horizontal
cursor; on a vertex buffer it appends exactly six vertices per byte other
than newline, behind the elements already in use. -/
theorem C10_push_text_is_fold {F : Type} [float_t F] (get_glyph : char → glyph_t F)
    (vb : Arr (vertex_t F)) (s : List char) (x0 y0 : F) (hwf : array_wf vb) :
    push_text get_glyph vb s s.length x0 y0 = push_text_fold get_glyph vb s x0 y0 ∧
    array_size (push_text get_glyph vb s s.length x0 y0) =
      array_size vb + 6 * (s.filter (fun ch => ch ≠ 10)).length ∧
    (array_items (push_text get_glyph vb s s.length x0 y0)).take (array_size vb) =
      array_items vb := by
  have heq : push_text get_glyph vb s s.length x0 y0 = push_text_fold get_glyph vb s x0 y0 := by
    unfold push_text push_text_fold
    rw [push_text_loop_eq_fold get_glyph s x0 s.length 0 x0 y0 vb (by omega) (by omega)]
    rfl
  obtain ⟨_, h2, h3⟩ := text_fold_spec get_glyph x0 s
    { x := x0, y := y0, vertex_buffer := vb } hwf
  rw [heq]
  exact ⟨rfl, h2, h3⟩

/-- C10 at a concrete input: the text `a\nb` pushed at (0, 14) into the empty
buffer gives twelve vertices, the seventh at the start of the second line. -/
theorem C10_push_text_is_fold_witness :
    array_size (push_text sample_glyph none [97, 10, 98] 3 0 14) = 0 + 6 * 2 ∧
    array_get (push_text sample_glyph none [97, 10, 98] 3 0 14) 6 =
      some { pos := { x := 1, y := 22 }, uv := { x := 98, y := 0 }, color := 0xFFFFFFFF } := by
  have h := C10_push_text_is_fold sample_glyph none [97, 10, 98] 0 14 (by decide)
  exact ⟨h.2.1, by decide⟩

/-! ## Objects discarded on failure -/

/-- The GL calls of `create_shader` when the compile fails: the shader is
deleted when the reported info log length is positive, and only then. -/
theorem create_shader_failure_calls (o : shader_outcome) (src : List src_t) (type : Nat)
    (g : globals) (hs : o.status = GL_FALSE) :
    (create_shader o src type g).1 = 0 ∧
    (0 < o.info_log_length →
      (create_shader o src type g).2.gl = g.gl ++
        [gl_call.glCreateShader type o.shader, gl_call.glShaderSource o.shader src,
          gl_call.glCompileShader o.shader,
          gl_call.glGetShaderInfoLog o.shader o.info_log_length,
          gl_call.glDeleteShader o.shader]) ∧
    (¬ 0 < o.info_log_length →
      (create_shader o src type g).2.gl = g.gl ++
        [gl_call.glCreateShader type o.shader, gl_call.glShaderSource o.shader src,
          gl_call.glCompileShader o.shader]) := by
  unfold create_shader
  dsimp only
  rw [if_pos hs]
  refine ⟨by split <;> rfl, ?_, ?_⟩
  · intro hlen
    rw [if_pos (show o.info_log_length > 0 from hlen)]
    simp only [List.append_assoc, List.cons_append, List.nil_append]
  · intro hlen
    rw [if_neg (show ¬ o.info_log_length > 0 from hlen)]

/-- The GL calls of `link_program` when the link fails: the program is deleted
when the reported info log length is positive, and only then. -/
theorem link_program_failure_calls (o : program_outcome) (vs fs : Nat) (g : globals)
    (hs : o.status = GL_FALSE) :
    (link_program o vs fs g).1 = 0 ∧
    (0 < o.info_log_length →
      (link_program o vs fs g).2.gl = g.gl ++
        [gl_call.glCreateProgram o.program, gl_call.glAttachShader o.program vs,
          gl_call.glAttachShader o.program fs, gl_call.glLinkProgram o.program,
          gl_call.glDetachShader o.program vs, gl_call.glDetachShader o.program fs,
          gl_call.glGetProgramInfoLog o.program o.info_log_length,
          gl_call.glDeleteProgram o.program]) ∧
    (¬ 0 < o.info_log_length →
      (link_program o vs fs g).2.gl = g.gl ++
        [gl_call.glCreateProgram o.program, gl_call.glAttachShader o.program vs,
          gl_call.glAttachShader o.program fs, gl_call.glLinkProgram o.program,
          gl_call.glDetachShader o.program vs, gl_call.glDetachShader o.program fs]) := by
  unfold link_program
  dsimp only
  rw [if_pos hs]
  refine ⟨by split <;> rfl, ?_, ?_⟩
  · intro hlen
    rw [if_pos (show o.info_log_length > 0 from hlen)]
    simp only [List.append_assoc, List.cons_append, List.nil_append]
  · intro hlen
    rw [if_neg (show ¬ o.info_log_length > 0 from hlen)]

/-- No path of `link_program` calls `glDeleteShader`: a shader deleted in the
trace afterwards was deleted before the call. -/
theorem link_program_keeps_shaders (o : program_outcome) (vs fs : Nat) (g : globals)
    (shader : Nat) (h : gl_call.glDeleteShader shader ∈ (link_program o vs fs g).2.gl) :
    gl_call.glDeleteShader shader ∈ g.gl := by
  unfold link_program at h
  dsimp only at h
  split at h
  · split at h
    · simpa using h
    · simpa using h
  · simpa using h

/-- C11 fails on the code for info log length 0: after a failed compile for
which the driver reports info log length 0, `create_shader` returns 0 having
made only the calls `glCreateShader`, `glShaderSource`, `glCompileShader`,
so shader 3 is not deleted; after a failed link with info log length 0,
`link_program` returns 0 and program 4 is not deleted.  With a positive info
log length both are deleted, and `link_program` deletes neither shader. -/
theorem C11_no_delete_when_no_info_log :
    (create_shader sample_compile_error_no_log [src_t.vs_src] GL_VERTEX_SHADER globals_init).1
      = 0 ∧
    (create_shader sample_compile_error_no_log [src_t.vs_src] GL_VERTEX_SHADER globals_init).2.gl
      = [gl_call.glCreateShader GL_VERTEX_SHADER 3, gl_call.glShaderSource 3 [src_t.vs_src],
          gl_call.glCompileShader 3] ∧
    gl_call.glDeleteShader 3 ∉
      (create_shader sample_compile_error_no_log [src_t.vs_src] GL_VERTEX_SHADER
        globals_init).2.gl ∧
    (link_program sample_link_error_no_log 1 2 globals_init).1 = 0 ∧
    (link_program sample_link_error_no_log 1 2 globals_init).2.gl
      = [gl_call.glCreateProgram 4, gl_call.glAttachShader 4 1, gl_call.glAttachShader 4 2,
          gl_call.glLinkProgram 4, gl_call.glDetachShader 4 1, gl_call.glDetachShader 4 2] ∧
    gl_call.glDeleteProgram 4 ∉ (link_program sample_link_error_no_log 1 2 globals_init).2.gl ∧
    gl_call.glDeleteShader 3 ∈
      (create_shader sample_compile_error [src_t.vs_src] GL_VERTEX_SHADER globals_init).2.gl ∧
    gl_call.glDeleteProgram 4 ∈ (link_program sample_link_error 1 2 globals_init).2.gl ∧
    gl_call.glDeleteShader 1 ∉ (link_program sample_link_error 1 2 globals_init).2.gl ∧
    gl_call.glDeleteShader 2 ∉ (link_program sample_link_error 1 2 globals_init).2.gl := by
  decide

/-! ## The polling cadence -/

theorem iteration_last_read (e : poll_env) (s : main_state) :
    (iteration e s).last_read =
      if s.last_read ≥ FILE_UPDATE_RATE then 1 else s.last_read + 1 := by
  unfold iteration frame_end poll
  split <;> rfl

/-- The counter `last_read` after `n` iterations from loop entry, then
`es.length` more. -/
theorem run_last_read (es : List poll_env) (s : main_state) (n : Nat)
    (hs : s.last_read = if n % 10 = 0 then 10 else ((n % 10 : Nat) : Int)) :
    (run es s).last_read =
      if (n + es.length) % 10 = 0 then 10 else (((n + es.length) % 10 : Nat) : Int) := by
  induction es generalizing s n with
  | nil => simpa [run] using hs
  | cons e es ih =>
    have hstep : (iteration e s).last_read =
        if (n + 1) % 10 = 0 then 10 else (((n + 1) % 10 : Nat) : Int) := by
      rw [iteration_last_read, hs]
      unfold FILE_UPDATE_RATE
      split <;> split <;> split <;> omega
    have := ih (iteration e s) (n + 1) hstep
    simp only [run, List.foldl_cons, List.length_cons] at this ⊢
    rw [this]
    have hl : n + 1 + es.length = n + (es.length + 1) := by omega
    rw [hl]

/-- From a state with `last_read = FILE_UPDATE_RATE`, as at loop entry, the
poll is due after `es.length` iterations exactly when that number is a multiple
of 10. -/
theorem poll_due_iff (es : List poll_env) (s0 : main_state)
    (h0 : s0.last_read = FILE_UPDATE_RATE) :
    (run es s0).last_read ≥ FILE_UPDATE_RATE ↔ es.length % 10 = 0 := by
  have h := run_last_read es s0 0 (by simpa [FILE_UPDATE_RATE] using h0)
  rw [h]
  unfold FILE_UPDATE_RATE
  simp only [Nat.zero_add]
  split <;> omega

theorem startup_last_read (quad_vs quad_fs : shader_outcome) (quad : program_outcome)
    (main_vs : shader_outcome) (s0 : main_state)
    (h : startup quad_vs quad_fs quad main_vs = some s0) : s0.last_read = FILE_UPDATE_RATE := by
  unfold startup at h
  dsimp only at h
  split at h
  · cases h
  · split at h
    · cases h
    · split at h
      · cases h
      · split at h
        · cases h
        · cases h
          rfl

theorem file_calls_not_due (e : poll_env) (s : main_state)
    (h : ¬ s.last_read ≥ FILE_UPDATE_RATE) : file_calls e s = [] ∧ poll e s = s := by
  unfold file_calls poll
  rw [if_neg h, if_neg h]
  exact ⟨rfl, rfl⟩

theorem file_calls_due (e : poll_env) (s : main_state) (h : s.last_read ≥ FILE_UPDATE_RATE) :
    (file_calls e s).head? = some file_call.stat ∧
      poll e s = { reload e s with last_read := 0 } := by
  unfold file_calls poll
  rw [if_pos h, if_pos h]
  refine ⟨?_, rfl⟩
  cases e.stat with
  | none => rfl
  | some st =>
    dsimp only
    split
    · cases e.file <;> rfl
    · rfl

/-- C12: with `FILE_UPDATE_RATE = 10`, in every run of the main loop after the
setup, iteration `f` (counting from 0; `es` holds the answers of the `f`
iterations before it) enters the poll branch if and only if `f` is a multiple
of 10.  In such an iteration the branch runs and the first file access is
`stat`; in every other one the poll changes nothing and no call on the file
is made.  The very first iteration polls, and after an iteration that polls
the next nine make no file access and the tenth polls again. -/
theorem C12_poll_every_tenth_iteration (quad_vs quad_fs : shader_outcome)
    (quad : program_outcome) (main_vs : shader_outcome) (s0 : main_state)
    (es : List poll_env) (e : poll_env)
    (hstart : startup quad_vs quad_fs quad main_vs = some s0) :
    FILE_UPDATE_RATE = 10 ∧
    ((run es s0).last_read ≥ FILE_UPDATE_RATE ↔ es.length % 10 = 0) ∧
    (es.length % 10 = 0 →
      poll e (run es s0) = { reload e (run es s0) with last_read := 0 } ∧
      (file_calls e (run es s0)).head? = some file_call.stat) ∧
    (es.length % 10 ≠ 0 →
      poll e (run es s0) = run es s0 ∧ file_calls e (run es s0) = []) ∧
    s0.last_read ≥ FILE_UPDATE_RATE ∧
    (es.length % 10 = 0 → ∀ es1 : List poll_env,
      (1 ≤ es1.length → es1.length ≤ 9 → file_calls e (run (es ++ es1) s0) = []) ∧
      (es1.length = 10 → (file_calls e (run (es ++ es1) s0)).head? = some file_call.stat)) := by
  have h0 := startup_last_read quad_vs quad_fs quad main_vs s0 hstart
  have hiff := poll_due_iff es s0 h0
  refine ⟨rfl, hiff, ?_, ?_, by rw [h0], ?_⟩
  · intro hm
    obtain ⟨c1, c2⟩ := file_calls_due e (run es s0) (hiff.2 hm)
    exact ⟨c2, c1⟩
  · intro hm
    obtain ⟨c1, c2⟩ := file_calls_not_due e (run es s0) (fun hd => hm (hiff.1 hd))
    exact ⟨c2, c1⟩
  · intro hm es1
    have hiff1 := poll_due_iff (es ++ es1) s0 h0
    rw [List.length_append] at hiff1
    constructor
    · intro h1 h9
      exact (file_calls_not_due e _ (fun hd => by have := hiff1.1 hd; omega)).1
    · intro h10
      exact (file_calls_due e _ (hiff1.2 (by omega))).1

/-- C12 at a concrete input: after the sample setup, iteration 0 polls,
iteration 3 makes no file access, and iteration 10 polls again (`stat`, `fopen`,
`fread`, `fclose` as the timestamp differs from the baseline). -/
theorem C12_poll_every_tenth_iteration_witness :
    file_calls sample_env_error (run [] sample_start) =
      [file_call.stat, file_call.fopen, file_call.fread, file_call.fclose] ∧
    file_calls sample_env_error (run (List.replicate 3 sample_env_error) sample_start) = [] ∧
    ((run (List.replicate 10 sample_env_error) sample_start).last_read ≥ FILE_UPDATE_RATE ↔
      (List.replicate 10 sample_env_error).length % 10 = 0) ∧
    file_calls sample_env_error (run (List.replicate 10 sample_env_error) sample_start) =
      [file_call.stat, file_call.fopen, file_call.fread, file_call.fclose] := by
  have h3 := C12_poll_every_tenth_iteration { sample_compile_ok with shader := 1 }
    { sample_compile_ok with shader := 2 } { sample_link_ok with program := 6 }
    { sample_compile_ok with shader := 5 } sample_start (List.replicate 3 sample_env_error)
    sample_env_error (by decide)
  have h10 := C12_poll_every_tenth_iteration { sample_compile_ok with shader := 1 }
    { sample_compile_ok with shader := 2 } { sample_link_ok with program := 6 }
    { sample_compile_ok with shader := 5 } sample_start (List.replicate 10 sample_env_error)
    sample_env_error (by decide)
  exact ⟨by decide, (h3.2.2.2.1 (by decide)).2, h10.2.1, by decide⟩

end Tadershoy
